import Mathlib

/-!
Shallow embedding of the FlightBookingService core (itinerary search and
seat-inventory reservation engine) together with proofs about its claimed
properties.

Conventions of the embedding:
* The relational store is a `DB` value holding the rows of each table as a
  list; SQL queries and updates become pure list operations on it.
* Calendar dates are day numbers (`Nat`); times of day are minutes since
  midnight (`Nat`); a date-time is `date * 1440 + minutesOfDay`.
* Money is in integral currency units (`Nat`).
* `available_seats` is an `Int`, mirroring a signed SQL integer column.
* Each mutating service call becomes a function `DB → args → DB × Except e r`:
  the returned `DB` is the committed state, and — mirroring the source's
  `conn.rollback()` on any exception — it equals the input state whenever the
  call returns an error.
* Statuses are stored as strings, as in the database, so that the source's
  string-level filters (`status != 'cancelled'`, `LIKE '%cancelled%'`,
  `'cancelled' in status.lower()`) keep their exact semantics.
-/

namespace FlightBooking

/-- Row of the `City` table. -/
structure City where
  city_id : Nat
  city_name : String
  is_deleted : Bool
deriving DecidableEq, Repr

/-- Row of the `Airport` table. -/
structure Airport where
  airport_id : Nat
  city_id : Nat
  iata_code : String
  airport_name : String
  is_deleted : Bool
deriving DecidableEq, Repr

/-- Row of the `Airline` table. -/
structure Airline where
  airline_id : Nat
  airline_name : String
deriving DecidableEq, Repr

/-- Row of the `Flight` table (a recurring flight template). -/
structure Flight where
  flight_id : Nat
  airline_id : Nat
  flight_number : String
  source_airport : Nat
  destination_airport : Nat
  departure_time : Nat
  arrival_time : Nat
  duration_minutes : Nat
  base_price : Nat
  arrival_day_offset : Nat
  total_seats : Nat
  is_deleted : Bool
deriving DecidableEq, Repr

/-- Row of the `Flight_Instance` table, keyed by `(flight_id, flight_date)`. -/
structure FlightInstance where
  flight_id : Nat
  flight_date : Nat
  available_seats : Int
  is_deleted : Bool
deriving DecidableEq, Repr

/-- Row of the `Booking` table. -/
structure Booking where
  booking_id : Nat
  flight_id : Nat
  user_id : Nat
  booking_date : Nat
  travel_date : Nat
  status : String
  total_price : Nat
deriving DecidableEq, Repr

/-- Row of the `Passenger` table. -/
structure Passenger where
  passenger_id : Nat
  booking_id : Nat
  name : String
  age : Nat
  gender : String
  passport_no : String
deriving DecidableEq, Repr

/-- The whole relational store, plus identity-column counters and the clock
(`GETDATE()`). -/
structure DB where
  cities : List City
  airports : List Airport
  airlines : List Airline
  flights : List Flight
  instances : List FlightInstance
  bookings : List Booking
  passengers : List Passenger
  next_booking_id : Nat
  next_passenger_id : Nat
  now : Nat
deriving DecidableEq, Repr

/-- A flight-search request (`FlightSearchRequest` schema); the travel
date-time is split into its date and time-of-day parts. -/
structure FlightSearchRequest where
  source_city : String
  destination_city : String
  travel_date : Nat
  travel_time : Nat
  seats_required : Nat
  limit : Nat
deriving DecidableEq, Repr

/-- One leg of a search result (`FlightResult` schema). -/
structure FlightResult where
  flight_id : Nat
  airline_name : String
  flight_number : String
  source_airport : String
  destination_airport : String
  source_city : String
  destination_city : String
  departure_time : Nat
  arrival_time : Nat
  duration_minutes : Nat
  base_price : Nat
  available_seats : Int
deriving DecidableEq, Repr

/-- A search result itinerary (`ConnectingFlightResult` schema); direct
results carry a single leg. -/
structure ConnectingFlightResult where
  total_duration_minutes : Nat
  total_price : Nat
  flights : List FlightResult
deriving DecidableEq, Repr

/-- Errors surfaced by the search endpoints (HTTP 404s in the source). -/
inductive SearchErr where
  | invalidCity
  | noSourceAirports
  | noDestAirports
deriving DecidableEq, Repr

/-! ### Generic helpers -/

/-- Insert `x` into `l` in front of the first element `y` with `le x y`. -/
def insert_sorted (le : α → α → Bool) (x : α) : List α → List α
  | [] => [x]
  | y :: ys => if le x y then x :: y :: ys else y :: insert_sorted le x ys

/-- Insertion sort; the deterministic representative of SQL `ORDER BY`. -/
def sort_by_le (le : α → α → Bool) : List α → List α
  | [] => []
  | x :: xs => insert_sorted le x (sort_by_le le xs)

/-! ### Schedule-store reads -/

/-- SQL helper `get_airports_by_city_name`: ids of non-deleted airports in a
non-deleted city with this exact name. -/
def get_airports_by_city_name (db : DB) (city_name : String) : List Nat :=
  (db.airports.filter (fun a =>
    !a.is_deleted && db.cities.any (fun c =>
      c.city_id == a.city_id && c.city_name == city_name && !c.is_deleted))).map
    (fun a => a.airport_id)

/-- The `LEFT JOIN Flight_Instance fi ... AND fi.is_deleted = 0` lookup: the
live (non-deleted) instance row for a `(flight, date)` key, if any. -/
def live_instance (db : DB) (fid d : Nat) : Option FlightInstance :=
  db.instances.find? (fun i =>
    i.flight_id == fid && i.flight_date == d && !i.is_deleted)

/-- Any instance row (deleted or not) for a `(flight, date)` key. -/
def any_instance (db : DB) (fid d : Nat) : Option FlightInstance :=
  db.instances.find? (fun i => i.flight_id == fid && i.flight_date == d)

/-- The `NOT EXISTS (... fi2.is_deleted = 1)` test of the direct search. -/
def has_deleted_instance (db : DB) (fid d : Nat) : Bool :=
  db.instances.any (fun i =>
    i.flight_id == fid && i.flight_date == d && i.is_deleted)

/-- Effective availability as selected by the search queries:
`COALESCE(fi.available_seats, f.total_seats)` over the live-instance join. -/
def eff_avail (db : DB) (f : Flight) (d : Nat) : Int :=
  match live_instance db f.flight_id d with
  | some i => i.available_seats
  | none => (f.total_seats : Int)

/-- The seat-count clause of the search queries:
`(fi.available_seats IS NOT NULL AND fi.available_seats >= n) OR
 (fi.available_seats IS NULL AND f.total_seats >= n)`. -/
def seats_ok (db : DB) (f : Flight) (d n : Nat) : Bool :=
  match live_instance db f.flight_id d with
  | some i => (n : Int) ≤ i.available_seats
  | none => n ≤ f.total_seats

/-- Airline name reached by the `INNER JOIN Airline` of the search queries. -/
def airline_name_of (db : DB) (aid : Nat) : Option String :=
  (db.airlines.find? (fun a => a.airline_id == aid)).map (fun a => a.airline_name)

/-- Airport row reached by the `INNER JOIN Airport` of the search queries
(note: these joins do not filter on `is_deleted`). -/
def airport_row (db : DB) (aid : Nat) : Option Airport :=
  db.airports.find? (fun a => a.airport_id == aid)

/-- City name of an airport, through the `INNER JOIN City`. -/
def city_of_airport (db : DB) (aid : Nat) : Option String := do
  let ap ← airport_row db aid
  let c ← db.cities.find? (fun c => c.city_id == ap.city_id)
  pure c.city_name

/-! ### Direct search -/

/-- One candidate row of the direct-search query for flight `f`: all inner
joins must resolve, and the `WHERE` clause of `search_direct_flights` must
hold. The result combines the scheduled times with the travel date exactly as
the source does (`datetime.combine(travel_date, row[i])` for both ends, the
arrival not being advanced by `arrival_day_offset`). -/
def direct_row (db : DB) (src_ids dst_ids : List Nat) (d tmin n : Nat)
    (f : Flight) : Option FlightResult := do
  let an ← airline_name_of db f.airline_id
  let sap ← airport_row db f.source_airport
  let dap ← airport_row db f.destination_airport
  let scity ← city_of_airport db f.source_airport
  let dcity ← city_of_airport db f.destination_airport
  if src_ids.contains f.source_airport && dst_ids.contains f.destination_airport
      && !f.is_deleted && tmin ≤ f.departure_time
      && seats_ok db f d n
      && !has_deleted_instance db f.flight_id d then
    pure { flight_id := f.flight_id
           airline_name := an
           flight_number := f.flight_number
           source_airport := sap.iata_code
           destination_airport := dap.iata_code
           source_city := scity
           destination_city := dcity
           departure_time := d * 1440 + f.departure_time
           arrival_time := d * 1440 + f.arrival_time
           duration_minutes := f.duration_minutes
           base_price := f.base_price
           available_seats := eff_avail db f d }
  else none

/-- Ordering of the direct search: `ORDER BY f.base_price ASC,
f.departure_time ASC`. -/
def direct_le (r s : FlightResult) : Bool :=
  if r.base_price == s.base_price then r.departure_time ≤ s.departure_time
  else r.base_price ≤ s.base_price

/-- The service call `search_direct_flights`. -/
def search_direct_flights (db : DB) (req : FlightSearchRequest) :
    Except SearchErr (List ConnectingFlightResult) :=
  let src_ids := get_airports_by_city_name db req.source_city
  let dst_ids := get_airports_by_city_name db req.destination_city
  if src_ids.isEmpty || dst_ids.isEmpty then .error .invalidCity
  else
    let rows := db.flights.filterMap
      (direct_row db src_ids dst_ids req.travel_date req.travel_time req.seats_required)
    let sorted := sort_by_le direct_le rows
    .ok ((sorted.take req.limit).map (fun fr =>
      { total_duration_minutes := fr.duration_minutes
        total_price := fr.base_price
        flights := [fr] }))

/-! ### Connecting search -/

/-- One candidate row of the connecting-search CTE for the pair `(f1, f2)`.
Both legs are evaluated against the same nominal date `d`; availability uses
the live-instance join with a fall-back to `total_seats` — the query has no
`NOT EXISTS` guard on deleted instance rows. -/
def conn_pair (db : DB) (src_ids dst_ids : List Nat) (d tmin n : Nat)
    (f1 f2 : Flight) : Option ConnectingFlightResult := do
  let an1 ← airline_name_of db f1.airline_id
  let an2 ← airline_name_of db f2.airline_id
  let ap1 ← airport_row db f1.source_airport
  let ap2 ← airport_row db f1.destination_airport
  let ap3 ← airport_row db f2.destination_airport
  let scity1 ← city_of_airport db f1.source_airport
  let dcity1 ← city_of_airport db f1.destination_airport
  let dcity2 ← city_of_airport db f2.destination_airport
  if f1.destination_airport == f2.source_airport
      && src_ids.contains f1.source_airport
      && dst_ids.contains f2.destination_airport
      && !f1.is_deleted && !f2.is_deleted
      && tmin ≤ f1.departure_time
      && seats_ok db f1 d n && seats_ok db f2 d n then
    pure { total_duration_minutes := f1.duration_minutes + f2.duration_minutes
           total_price := f1.base_price + f2.base_price
           flights :=
             [{ flight_id := f1.flight_id
                airline_name := an1
                flight_number := f1.flight_number
                source_airport := ap1.iata_code
                destination_airport := ap2.iata_code
                source_city := scity1
                destination_city := dcity1
                departure_time := d * 1440 + f1.departure_time
                arrival_time := (d + f1.arrival_day_offset) * 1440 + f1.arrival_time
                duration_minutes := f1.duration_minutes
                base_price := f1.base_price
                available_seats := eff_avail db f1 d },
              { flight_id := f2.flight_id
                airline_name := an2
                flight_number := f2.flight_number
                source_airport := ap2.iata_code
                destination_airport := ap3.iata_code
                source_city := dcity1
                destination_city := dcity2
                departure_time := d * 1440 + f2.departure_time
                arrival_time := (d + f2.arrival_day_offset) * 1440 + f2.arrival_time
                duration_minutes := f2.duration_minutes
                base_price := f2.base_price
                available_seats := eff_avail db f2 d }] }
  else none

/-- Ordering of the connecting search: `ORDER BY total_price ASC,
total_duration ASC`. -/
def conn_le (r s : ConnectingFlightResult) : Bool :=
  if r.total_price == s.total_price then
    r.total_duration_minutes ≤ s.total_duration_minutes
  else r.total_price ≤ s.total_price

/-- The service call `search_connecting_flights`. -/
def search_connecting_flights (db : DB) (req : FlightSearchRequest) :
    Except SearchErr (List ConnectingFlightResult) :=
  let src_ids := get_airports_by_city_name db req.source_city
  let dst_ids := get_airports_by_city_name db req.destination_city
  if src_ids.isEmpty then .error .noSourceAirports
  else if dst_ids.isEmpty then .error .noDestAirports
  else
    let rows := db.flights.flatMap (fun f1 =>
      db.flights.filterMap
        (conn_pair db src_ids dst_ids req.travel_date req.travel_time
          req.seats_required f1))
    .ok ((sort_by_le conn_le rows).take req.limit)

/-! ### Merged two-day search -/

/-- The request for `day_offset` days after the requested date
(`request.travel_datetime + timedelta(days=day_offset)`). -/
def advance_request (req : FlightSearchRequest) (off : Nat) : FlightSearchRequest :=
  { req with travel_date := req.travel_date + off }

/-- Body of the `for day_offset in [0, 1]` loop of `search_all_flights`:
`acc` is `all_results` so far; the loop breaks as soon as `limit` results are
accumulated, and the final list is truncated to `limit`. -/
def search_all_go (db : DB) (req : FlightSearchRequest) :
    List Nat → List ConnectingFlightResult →
    Except SearchErr (List ConnectingFlightResult)
  | [], acc => .ok (acc.take req.limit)
  | off :: rest, acc =>
    let rq := advance_request req off
    match search_direct_flights db rq with
    | .error e => .error e
    | .ok direct =>
      match
        ((if direct.length < rq.limit then
          match search_connecting_flights db rq with
          | .error e => .error e
          | .ok c => .ok (c.take (rq.limit - direct.length))
        else .ok []) : Except SearchErr (List ConnectingFlightResult)) with
      | .error e => .error e
      | .ok connecting =>
        let acc2 := acc ++ (direct ++ connecting)
        if req.limit ≤ acc2.length then .ok (acc2.take req.limit)
        else search_all_go db req rest acc2

/-- The service call `search_all_flights`: the two-stage (direct, then
connecting-up-to-shortfall) search over the requested day and at most one
following day. -/
def search_all_flights (db : DB) (req : FlightSearchRequest) :
    Except SearchErr (List ConnectingFlightResult) :=
  search_all_go db req [0, 1] []

/-! ### Reservation manager (`book_flight`) -/

/-- One passenger of a booking request (`PassengerDetail` schema). -/
structure PassengerDetail where
  name : String
  age : Nat
  gender : String
  passport_no : String
deriving DecidableEq, Repr

/-- A booking request (`BookingRequest` schema). -/
structure BookingRequest where
  flight_id : Nat
  seats_required : Nat
  travel_date : Nat
  passenger_details : List PassengerDetail
deriving DecidableEq, Repr

/-- The response of a successful booking (`BookingResponse` schema). -/
structure BookingResponse where
  booking_id : Nat
  status : String
  total_price : Nat
  message : String
deriving DecidableEq, Repr

/-- Errors raised by `book_flight` before the catch-all wrapper. -/
inductive BookErr where
  | flightNotFound
  | insufficientSeats (available : Int) (requested : Nat)
deriving DecidableEq, Repr

/-- The initial `check_query` of `book_flight`: the instance row for the key
joined (with no `is_deleted` filter on either table) to its flight row,
yielding `(available_seats, base_price, flight_date)`. -/
def book_check (db : DB) (fid d : Nat) : Option (Int × Nat × Nat) := do
  let i ← any_instance db fid d
  let f ← db.flights.find? (fun f => f.flight_id == fid)
  pure (i.available_seats, f.base_price, i.flight_date)

/-- Append one `Passenger` row per entry of the passenger list, all referring
to booking `bid`. -/
def add_passengers (db : DB) (bid : Nat) : List PassengerDetail → DB
  | [] => db
  | p :: ps =>
    add_passengers
      { db with
        passengers := db.passengers ++
          [{ passenger_id := db.next_passenger_id
             booking_id := bid
             name := p.name
             age := p.age
             gender := p.gender
             passport_no := p.passport_no }]
        next_passenger_id := db.next_passenger_id + 1 }
      bid ps

/-- The final `UPDATE Flight_Instance SET available_seats = available_seats - n`
of `book_flight`, applied to every row with the key. -/
def debit_instance (db : DB) (fid d n : Nat) : DB :=
  { db with
    instances := db.instances.map (fun i =>
      if i.flight_id == fid && i.flight_date == d then
        { i with available_seats := i.available_seats - n }
      else i) }

/-- The service call `book_flight`. Steps, as in the source: locate (or
lazily create, seeded with `total_seats`) the flight instance; check
availability; insert the `Booking` row (with the hard-coded user id `1` and
`GETDATE()` as booking date); insert the `Passenger` rows; debit the seats.
Any failure rolls the transaction back, so the error branches return the
input state unchanged. -/
def book_flight (db : DB) (req : BookingRequest) :
    DB × Except BookErr BookingResponse :=
  let staged : Except BookErr (DB × Int × Nat × Nat) :=
    match book_check db req.flight_id req.travel_date with
    | some (avail, price, fdate) => .ok (db, avail, price, fdate)
    | none =>
      match db.flights.find? (fun f => f.flight_id == req.flight_id && !f.is_deleted) with
      | none => .error .flightNotFound
      | some f =>
        .ok ({ db with
                instances := db.instances ++
                  [{ flight_id := req.flight_id
                     flight_date := req.travel_date
                     available_seats := (f.total_seats : Int)
                     is_deleted := false }] },
             (f.total_seats : Int), f.base_price, req.travel_date)
  match staged with
  | .error e => (db, .error e)
  | .ok (db1, avail, price, fdate) =>
    if avail < (req.seats_required : Int) then
      (db, .error (.insufficientSeats avail req.seats_required))
    else
      let total_price := price * req.seats_required
      let bid := db1.next_booking_id
      let db2 := { db1 with
        bookings := db1.bookings ++
          [{ booking_id := bid
             flight_id := req.flight_id
             user_id := 1
             booking_date := db.now
             travel_date := fdate
             status := "confirmed"
             total_price := total_price }]
        next_booking_id := bid + 1 }
      let db3 := add_passengers db2 bid req.passenger_details
      let db4 := debit_instance db3 req.flight_id req.travel_date req.seats_required
      (db4, .ok { booking_id := bid
                  status := "confirmed"
                  total_price := total_price
                  message := "Successfully booked " ++ toString req.seats_required ++ " seats" })

/-! ### Cancellation manager -/

/-- Errors raised by `cancel_bookings` / `cancel_flight` before the
catch-all wrappers. -/
inductive CancelErr where
  | noIdsProvided
  | noValidBookings
  | bookingsNotFound (ids : List Nat)
  | alreadyCancelled (ids : List Nat)
  | flightNotFoundOrDeleted
deriving DecidableEq, Repr

/-- Substring containment test on character lists. -/
def char_infix (needle : List Char) : List Char → Bool
  | [] => needle.isEmpty
  | c :: cs => needle.isPrefixOf (c :: cs) || char_infix needle cs

/-- ASCII lower-casing of one character (all stored statuses are ASCII). -/
def lower_char (c : Char) : Char :=
  if c.toNat < 65 || 90 < c.toNat then c else Char.ofNat (c.toNat + 32)

/-- The Python test `'cancelled' in status.lower()`. -/
def status_is_cancelled (s : String) : Bool :=
  char_infix "cancelled".data (s.data.map lower_char)

/-- The SQL filter `status NOT LIKE '%cancelled%'`, as plain substring
containment on the stored value. -/
def status_like_cancelled (s : String) : Bool :=
  char_infix "cancelled".data s.data

/-- Rows returned by the validation query of `cancel_bookings`:
`SELECT booking_id, status FROM Booking WHERE booking_id IN (ids)`. -/
def matched_bookings (db : DB) (ids : List Nat) : List Booking :=
  db.bookings.filter (fun b => ids.contains b.booking_id)

/-- Requested ids with no matching `Booking` row (Python's
`set(ids) - found_booking_ids`, deduplicated). -/
def unmatched_ids (db : DB) (ids : List Nat) : List Nat :=
  (ids.filter (fun i =>
    !(db.bookings.any (fun b => b.booking_id == i)))).dedup

/-- Matched bookings that are already in a cancelled state. -/
def already_cancelled_ids (db : DB) (ids : List Nat) : List Nat :=
  ((matched_bookings db ids).filter (fun b => status_is_cancelled b.status)).map
    (fun b => b.booking_id)

/-- Total passenger count, over bookings in `ids` for the `(fid, d)` key, of
the seat-release subquery of `cancel_bookings` (`COUNT(p.passenger_id)`
grouped by `(flight_id, travel_date)`). -/
def released_seats (ps : List Passenger) (bs : List Booking)
    (ids : List Nat) (fid d : Nat) : Nat :=
  ((bs.filter (fun b =>
      ids.contains b.booking_id && b.flight_id == fid && b.travel_date == d)).map
    (fun b => ps.countP (fun p => p.booking_id == b.booking_id))).sum

/-- The service call `cancel_bookings`. Validation: non-empty id list, at
least one id matched, no unmatched id, no already-cancelled booking. On
success: matched bookings become `cancelled_by_user` and each instance is
credited with the passenger count released against its key. Every error
branch returns the input state unchanged (rollback). -/
def cancel_bookings (db : DB) (ids : List Nat) : DB × Except CancelErr Unit :=
  if ids.isEmpty then (db, .error .noIdsProvided)
  else
    let existing := matched_bookings db ids
    if existing.isEmpty then (db, .error .noValidBookings)
    else if !(unmatched_ids db ids).isEmpty then
      (db, .error (.bookingsNotFound (unmatched_ids db ids)))
    else if !(already_cancelled_ids db ids).isEmpty then
      (db, .error (.alreadyCancelled (already_cancelled_ids db ids)))
    else
      let db1 := { db with
        bookings := db.bookings.map (fun b : Booking =>
          if ids.contains b.booking_id && !status_like_cancelled b.status then
            { b with status := "cancelled_by_user" }
          else b) }
      let db2 := { db1 with
        instances := db1.instances.map (fun i : FlightInstance =>
          { i with available_seats := i.available_seats +
              (released_seats db1.passengers db1.bookings ids i.flight_id i.flight_date : Int) }) }
      (db2, .ok ())

/-- The step-1 lookup of `cancel_flight`: an instance row for the key (any
deletion flag) inner-joined to a non-deleted flight and its airline, airport
and city rows. -/
def flight_details_found (db : DB) (fid d : Nat) : Bool :=
  (db.instances.any (fun i => i.flight_id == fid && i.flight_date == d)) &&
  (match db.flights.find? (fun f => f.flight_id == fid && !f.is_deleted) with
   | none => false
   | some f =>
     (airline_name_of db f.airline_id).isSome &&
     (city_of_airport db f.source_airport).isSome &&
     (city_of_airport db f.destination_airport).isSome)

/-- The service call `cancel_flight` (modelled through its transaction
commit; the post-commit alternative search and external notifications do not
change the store). Bookings for the key whose status is not the literal
string `"cancelled"` are set to `cancelled_by_airline` with `booking_date`
overwritten by `GETDATE()`; the instance is marked deleted with
`available_seats = 0` (inserted that way if no row matched). Returns the
number of affected bookings. -/
def cancel_flight (db : DB) (fid d : Nat) : DB × Except CancelErr Nat :=
  if !flight_details_found db fid d then
    (db, .error .flightNotFoundOrDeleted)
  else
    let affected := db.bookings.countP (fun b =>
      b.flight_id == fid && b.travel_date == d && b.status != "cancelled")
    let db1 := { db with
      bookings := db.bookings.map (fun b : Booking =>
        if b.flight_id == fid && b.travel_date == d && b.status != "cancelled" then
          { b with status := "cancelled_by_airline", booking_date := db.now }
        else b) }
    let db2 :=
      if db1.instances.any (fun i => i.flight_id == fid && i.flight_date == d) then
        { db1 with
          instances := db1.instances.map (fun i : FlightInstance =>
            if i.flight_id == fid && i.flight_date == d then
              { i with is_deleted := true, available_seats := 0 }
            else i) }
      else
        { db1 with
          instances := db1.instances ++
            [({ flight_id := fid, flight_date := d
                available_seats := 0, is_deleted := true } : FlightInstance)] }
    (db2, .ok affected)

/-! ### The spec's description of the merged search (for the refinement
claim about `search_all_flights`) -/

/-- Stated from the spec's words (§4.5, first stage): direct results for the
date; if fewer than `limit`, connecting results appended up to the
shortfall. -/
def two_stage_per_spec (db : DB) (req : FlightSearchRequest) :
    Except SearchErr (List ConnectingFlightResult) :=
  match search_direct_flights db req with
  | .error e => .error e
  | .ok d =>
    if d.length < req.limit then
      match search_connecting_flights db req with
      | .error e => .error e
      | .ok c => .ok (d ++ c.take (req.limit - d.length))
    else .ok d

/-- Stated from the spec's words (§4.5): the two-stage search on the
requested date; if still short of `limit`, the two-stage search on exactly
one following calendar day appended in stage order; the final list truncated
to `limit`. -/
def search_all_per_spec (db : DB) (req : FlightSearchRequest) :
    Except SearchErr (List ConnectingFlightResult) :=
  match two_stage_per_spec db req with
  | .error e => .error e
  | .ok day0 =>
    if day0.length < req.limit then
      match two_stage_per_spec db (advance_request req 1) with
      | .error e => .error e
      | .ok day1 => .ok ((day0 ++ day1).take req.limit)
    else .ok (day0.take req.limit)

/-! ### Sequences of mutating operations and the seat invariant -/

/-- A mutating operation of the engine. -/
inductive Op where
  | book (req : BookingRequest)
  | cancelB (ids : List Nat)
  | cancelF (fid d : Nat)
deriving DecidableEq, Repr

/-- The state reached by one operation (its committed state; a failed
operation leaves the store unchanged by rollback). -/
def apply_op (db : DB) : Op → DB
  | .book req => (book_flight db req).1
  | .cancelB ids => (cancel_bookings db ids).1
  | .cancelF fid d => (cancel_flight db fid d).1

/-- The state reached by a sequence of operations. -/
def run_ops (db : DB) : List Op → DB
  | [] => db
  | op :: ops => run_ops (apply_op db op) ops

/-- Request-level validation enforced by the HTTP schema layer
(`seats_required` has `gt=0`). -/
def valid_op : Op → Bool
  | .book req => 1 ≤ req.seats_required
  | .cancelB _ => true
  | .cancelF _ _ => true

/-- `valid_op` plus the condition that each booking's passenger list has
exactly `seats_required` entries (so that the seat debit and the passenger
count agree). -/
def balanced_op : Op → Bool
  | .book req =>
    (1 ≤ req.seats_required) && req.passenger_details.length == req.seats_required
  | .cancelB _ => true
  | .cancelF _ _ => true

/-- A starting state holding only reference/catalog data: no instance,
booking or passenger rows, and primary-key-distinct flight templates. -/
def initial_state (ref : DB) : Prop :=
  ref.instances = [] ∧ ref.bookings = [] ∧ ref.passengers = [] ∧
    ref.flights.Pairwise (fun f g => f.flight_id ≠ g.flight_id)

/-- `template.total_seats` of the flight with a given id (0 if absent). -/
def total_seats_of (db : DB) (fid : Nat) : Nat :=
  match db.flights.find? (fun f => f.flight_id == fid) with
  | some f => f.total_seats
  | none => 0

/-- The spec's FlightInstance invariant:
`0 <= available_seats <= template.total_seats` whenever a row is present,
and a deleted instance has `available_seats == 0`. -/
def seat_invariant (db : DB) : Prop :=
  ∀ i ∈ db.instances,
    0 ≤ i.available_seats ∧
    i.available_seats ≤ (total_seats_of db i.flight_id : Int) ∧
    (i.is_deleted = true → i.available_seats = 0)

/-- Number of `Passenger` rows referring to booking `bid`. -/
def pcount (ps : List Passenger) (bid : Nat) : Nat :=
  ps.countP (fun p => p.booking_id == bid)

/-- Seats currently held by confirmed bookings against the `(fid, d)` key:
the sum of their passenger counts. -/
def seat_sum (ps : List Passenger) (bs : List Booking) (fid d : Nat) : Nat :=
  ((bs.filter (fun b =>
      b.flight_id == fid && b.travel_date == d && b.status == "confirmed")).map
    (fun b => pcount ps b.booking_id)).sum

/-- The `available_seats` column of the instance row for a key, if any row
(deleted or not) is present. -/
def instance_seats (db : DB) (fid d : Nat) : Option Int :=
  (any_instance db fid d).map (fun i => i.available_seats)

/-- Inductive invariant carried by every state reachable from reference
data: primary-key-distinct flights and instance keys, identity-bounded
booking and passenger ids, statuses drawn from the closed enumeration,
an instance row under every confirmed booking, and the seat balance
`available_seats + (seats held by confirmed bookings) ≤ total_seats`
with deleted instances holding zero seats and no confirmed bookings. -/
def state_inv (db : DB) : Prop :=
  db.flights.Pairwise (fun f g => f.flight_id ≠ g.flight_id) ∧
  db.instances.Pairwise (fun i j =>
    ¬(i.flight_id = j.flight_id ∧ i.flight_date = j.flight_date)) ∧
  (∀ b ∈ db.bookings, b.booking_id < db.next_booking_id) ∧
  (∀ p ∈ db.passengers, p.booking_id < db.next_booking_id) ∧
  (∀ b ∈ db.bookings, b.status = "confirmed" ∨ b.status = "cancelled_by_user" ∨
    b.status = "cancelled_by_airline") ∧
  (∀ b ∈ db.bookings, b.status = "confirmed" →
    ∃ i ∈ db.instances, i.flight_id = b.flight_id ∧
      i.flight_date = b.travel_date) ∧
  (∀ i ∈ db.instances,
    0 ≤ i.available_seats ∧
    i.available_seats +
      (seat_sum db.passengers db.bookings i.flight_id i.flight_date : Int) ≤
      (total_seats_of db i.flight_id : Int) ∧
    (i.is_deleted = true → i.available_seats = 0 ∧
      seat_sum db.passengers db.bookings i.flight_id i.flight_date = 0))

/-- Decidable equality of `Except` values, for concrete evaluations. -/
instance {ε α : Type} [DecidableEq ε] [DecidableEq α] :
    DecidableEq (Except ε α) := fun a b =>
  match a, b with
  | .ok x, .ok y =>
    if h : x = y then isTrue (by rw [h])
    else isFalse (fun hh => h (Except.ok.inj hh))
  | .error x, .error y =>
    if h : x = y then isTrue (by rw [h])
    else isFalse (fun hh => h (Except.error.inj hh))
  | .ok _, .error _ => isFalse (fun hh => Except.noConfusion hh)
  | .error _, .ok _ => isFalse (fun hh => Except.noConfusion hh)

/-- The seat invariant is decidable, so it can be checked on concrete
states. -/
instance seat_invariant_decidable (db : DB) : Decidable (seat_invariant db) := by
  unfold seat_invariant; infer_instance

/-- Being an initial reference state is decidable. -/
instance initial_state_decidable (ref : DB) : Decidable (initial_state ref) := by
  unfold initial_state; infer_instance

/-- Unwraps a successful search result list (empty on error); used to state
concrete evaluations of the search endpoints. -/
def search_ok_list : Except SearchErr (List ConnectingFlightResult) →
    List ConnectingFlightResult
  | .ok rs => rs
  | .error _ => []

/-- Basic well-formedness of a store, as guaranteed by the database's
identity columns and primary keys: every booking id and every passenger's
booking reference is below the next identity value, and flight template ids
are distinct. -/
def db_wf (db : DB) : Prop :=
  (∀ b ∈ db.bookings, b.booking_id < db.next_booking_id) ∧
  (∀ p ∈ db.passengers, p.booking_id < db.next_booking_id) ∧
  db.flights.Pairwise (fun f g => f.flight_id ≠ g.flight_id)

/-- Store well-formedness is decidable. -/
instance db_wf_decidable (db : DB) : Decidable (db_wf db) := by
  unfold db_wf; infer_instance

/-- Effective availability of a `(flight id, date)` key per the schedule
store's read model: the live instance's seats if present, else the
template's total capacity. -/
def effective_avail_id (db : DB) (fid d : Nat) : Int :=
  match live_instance db fid d with
  | some i => i.available_seats
  | none => (total_seats_of db fid : Int)

/-- Agreement of two `Booking` rows on every field other than `status` and
`booking_date`. -/
def booking_core_eq (b b2 : Booking) : Prop :=
  b2.booking_id = b.booking_id ∧ b2.flight_id = b.flight_id ∧
  b2.user_id = b.user_id ∧ b2.travel_date = b.travel_date ∧
  b2.total_price = b.total_price

/-! ### Concrete fixtures used by counterexamples and witnesses -/

/-- Reference city rows used by the concrete scenarios. -/
def cityA : City := { city_id := 1, city_name := "A", is_deleted := false }

/-- Second reference city. -/
def cityB : City := { city_id := 2, city_name := "B", is_deleted := false }

/-- Third reference city. -/
def cityC : City := { city_id := 3, city_name := "C", is_deleted := false }

/-- Airport of `cityA`. -/
def apA : Airport :=
  { airport_id := 1, city_id := 1, iata_code := "AAA"
    airport_name := "A Intl", is_deleted := false }

/-- Airport of `cityB`. -/
def apB : Airport :=
  { airport_id := 2, city_id := 2, iata_code := "BBB"
    airport_name := "B Intl", is_deleted := false }

/-- Airport of `cityC`. -/
def apC : Airport :=
  { airport_id := 3, city_id := 3, iata_code := "CCC"
    airport_name := "C Intl", is_deleted := false }

/-- Reference airline. -/
def alX : Airline := { airline_id := 1, airline_name := "AL" }

/-- Template 1: A → B, price 50. -/
def flAB : Flight :=
  { flight_id := 1, airline_id := 1, flight_number := "F1"
    source_airport := 1, destination_airport := 2
    departure_time := 100, arrival_time := 200, duration_minutes := 100
    base_price := 50, arrival_day_offset := 0, total_seats := 5
    is_deleted := false }

/-- Template 2: B → C, price 60. -/
def flBC : Flight :=
  { flight_id := 2, airline_id := 1, flight_number := "F2"
    source_airport := 2, destination_airport := 3
    departure_time := 300, arrival_time := 400, duration_minutes := 100
    base_price := 60, arrival_day_offset := 0, total_seats := 5
    is_deleted := false }

/-- Template 3: A → B arriving the next calendar day
(`arrival_day_offset = 1`). -/
def flNight : Flight :=
  { flight_id := 3, airline_id := 1, flight_number := "F3"
    source_airport := 1, destination_airport := 2
    departure_time := 600, arrival_time := 30, duration_minutes := 330
    base_price := 10, arrival_day_offset := 1, total_seats := 5
    is_deleted := false }

/-- Store for the connecting-search scenario: routes A→B→C, with the B→C
occurrence of date 10 cancelled (deleted instance row with 0 seats). -/
def dbConn : DB :=
  { cities := [cityA, cityB, cityC], airports := [apA, apB, apC]
    airlines := [alX], flights := [flAB, flBC]
    instances := [{ flight_id := 2, flight_date := 10
                    available_seats := 0, is_deleted := true }]
    bookings := [], passengers := []
    next_booking_id := 1, next_passenger_id := 1, now := 0 }

/-- Connecting search request A → C on date 10. -/
def reqConn : FlightSearchRequest :=
  { source_city := "A", destination_city := "C", travel_date := 10
    travel_time := 0, seats_required := 1, limit := 5 }

/-- Store for the day-offset scenario: a single overnight template A → B. -/
def dbNight : DB :=
  { cities := [cityA, cityB], airports := [apA, apB]
    airlines := [alX], flights := [flNight]
    instances := [], bookings := [], passengers := []
    next_booking_id := 1, next_passenger_id := 1, now := 0 }

/-- Direct search request A → B on date 10. -/
def reqNight : FlightSearchRequest :=
  { source_city := "A", destination_city := "B", travel_date := 10
    travel_time := 0, seats_required := 1, limit := 5 }

/-- Store with one user-cancelled booking on flight 1, date 10 (with its
instance row present, as `cancel_flight` requires). -/
def dbUserCancelled : DB :=
  { cities := [cityA, cityB], airports := [apA, apB]
    airlines := [alX], flights := [flAB]
    instances := [{ flight_id := 1, flight_date := 10
                    available_seats := 5, is_deleted := false }]
    bookings := [{ booking_id := 1, flight_id := 1, user_id := 1
                   booking_date := 5, travel_date := 10
                   status := "cancelled_by_user", total_price := 100 }]
    passengers := []
    next_booking_id := 2, next_passenger_id := 1, now := 99 }

/-- Store with one confirmed booking on flight 1, date 10. -/
def dbConfirmed : DB :=
  { dbUserCancelled with
    bookings := [{ booking_id := 1, flight_id := 1, user_id := 1
                   booking_date := 5, travel_date := 10
                   status := "confirmed", total_price := 100 }] }

/-- Pure reference store: a single 5-seat template, no instances, bookings
or passengers. -/
def dbRef : DB :=
  { cities := [], airports := [], airlines := []
    flights := [{ flight_id := 1, airline_id := 1, flight_number := "F1"
                  source_airport := 1, destination_airport := 2
                  departure_time := 100, arrival_time := 200
                  duration_minutes := 100, base_price := 10
                  arrival_day_offset := 0, total_seats := 5
                  is_deleted := false }]
    instances := [], bookings := [], passengers := []
    next_booking_id := 1, next_passenger_id := 1, now := 0 }

/-- A booking request for 1 seat carrying 2 passengers (the passenger list
and the seat count disagree). -/
def reqMismatch : BookingRequest :=
  { flight_id := 1, seats_required := 1, travel_date := 10
    passenger_details :=
      [{ name := "P", age := 30, gender := "M", passport_no := "X1" },
       { name := "Q", age := 31, gender := "F", passport_no := "X2" }] }

/-- A booking request for 2 seats carrying exactly 2 passengers. -/
def reqBalanced : BookingRequest :=
  { reqMismatch with seats_required := 2 }

/-! ## Theorems -/

/-- C1. The connecting search violates the deleted-instance exclusion: on
`dbConn`, flight 2's date-10 instance is marked deleted, yet the connecting
search A → C on date 10 returns the itinerary whose second leg is flight 2,
with its effective availability fallen back to the template's `total_seats`
(5). The connecting query's live-instance left join skips the deleted row
and, unlike the direct query, has no `NOT EXISTS` guard, so the deleted
occurrence is treated as available capacity. -/
theorem C1_connecting_search_includes_deleted_instance :
    has_deleted_instance dbConn 2 10 = true ∧
    total_seats_of dbConn 2 = 5 ∧
    (search_ok_list (search_connecting_flights dbConn reqConn)).any
      (fun r => r.flights.any
        (fun fr => fr.flight_id == 2 && fr.available_seats == 5)) = true := by
  decide

/-- C5 (counter-evidence). Cancelled statuses are not terminal under
`cancel_flight`: on `dbUserCancelled`, booking 1 has status
`cancelled_by_user` (a cancelled variant), yet `cancel_flight 1 10`
transitions it to `cancelled_by_airline`, because the source filters on
`status != 'cancelled'` (string literal) instead of a cancelled-variant
test. -/
theorem C5_cancel_flight_overwrites_user_cancelled :
    (dbUserCancelled.bookings.map (fun b => b.status)) = ["cancelled_by_user"] ∧
    status_is_cancelled "cancelled_by_user" = true ∧
    ((cancel_flight dbUserCancelled 1 10).1.bookings.map (fun b => b.status)) =
      ["cancelled_by_airline"] := by
  decide

/-- C7 (counter-evidence). The direct search does not advance the reported
arrival by the template's `arrival_day_offset`: on `dbNight` (offset 1,
arrival 00:30), the date-10 search reports arrival `10 * 1440 + 30 = 14430`,
whereas the travel date advanced by the offset gives
`(10 + 1) * 1440 + 30 = 15870`. -/
theorem C7_direct_search_arrival_ignores_day_offset :
    flNight.arrival_day_offset = 1 ∧
    ((search_ok_list (search_direct_flights dbNight reqNight)).map
      (fun r => r.flights.map (fun fr => (fr.departure_time, fr.arrival_time)))) =
      [[(15000, 14430)]] ∧
    (10 + flNight.arrival_day_offset) * 1440 + flNight.arrival_time = 15870 ∧
    (14430 : Nat) ≠ 15870 := by
  decide

/-- C2 (counterexample). A valid sequence of operations from reference data
breaks the invariant `available_seats ≤ template.total_seats`: booking 1
seat with 2 passengers debits 1, and cancelling that booking credits the
passenger count 2, leaving 6 > 5 available seats. -/
theorem C2_invariant_counterexample :
    initial_state dbRef ∧
    [Op.book reqMismatch, Op.cancelB [1]].all valid_op = true ∧
    ¬ seat_invariant (run_ops dbRef [Op.book reqMismatch, Op.cancelB [1]]) := by
  decide

/-- C3 (counterexample). The round trip does not restore availability when
the passenger list and the seat count disagree: booking 1 seat with 2
passengers on a fresh instance (template capacity 5, so pre-booking
effective availability 5) and then cancelling that booking leaves the
instance with 6 available seats. -/
theorem C3_roundtrip_counterexample :
    instance_seats dbRef 1 10 = none ∧
    total_seats_of dbRef 1 = 5 ∧
    (book_flight dbRef reqMismatch).2 =
      .ok { booking_id := 1, status := "confirmed", total_price := 10
            message := "Successfully booked 1 seats" } ∧
    (cancel_bookings (book_flight dbRef reqMismatch).1 [1]).2 = .ok () ∧
    instance_seats (cancel_bookings (book_flight dbRef reqMismatch).1 [1]).1 1 10 =
      some 6 ∧
    (6 : Int) ≠ 5 := by
  decide

/-- C6 (counterexample). When every requested id is unmatched, the failure
does not list the missing ids: `dbRef` has no bookings at all, and
cancelling `[7]` fails with the generic `noValidBookings` condition rather
than one naming id 7. -/
theorem C6_all_unmatched_counterexample :
    dbRef.bookings = [] ∧
    (cancel_bookings dbRef [7]).2 = .error .noValidBookings ∧
    CancelErr.noValidBookings ≠ CancelErr.bookingsNotFound [7] := by
  decide

/-- C9 (counterexample). `cancel_flight` does not change only the status
field: on `dbConfirmed` (booking creation timestamp 5, clock at 99),
cancelling flight 1 on date 10 overwrites the booking's `booking_date` with
the current time. -/
theorem C9_cancel_flight_changes_booking_date :
    (dbConfirmed.bookings.map (fun b => b.booking_date)) = [5] ∧
    ((cancel_flight dbConfirmed 1 10).1.bookings.map (fun b => b.booking_date)) =
      [99] ∧
    (5 : Nat) ≠ 99 := by
  decide

/-! ### Helper lemmas about `book_flight`'s building blocks -/

/-- `add_passengers` never touches the `Booking` table. -/
theorem add_passengers_bookings (ps : List PassengerDetail) :
    ∀ db bid, (add_passengers db bid ps).bookings = db.bookings := by
  induction ps with
  | nil => intro db bid; rfl
  | cons p ps ih => intro db bid; exact ih _ bid

/-- `debit_instance` never touches the `Booking` table. -/
theorem debit_instance_bookings (db : DB) (fid d n : Nat) :
    (debit_instance db fid d n).bookings = db.bookings := rfl

/-- C4. Atomicity of `book_flight`: whenever the call fails (template
missing or inactive, or insufficient seats), the returned store equals the
input store — no booking, passenger, instance or seat-count change survives
— and the originating condition is the surfaced error value. -/
theorem C4_book_failure_leaves_state_unchanged (db : DB) (req : BookingRequest)
    (e : BookErr) (h : (book_flight db req).2 = .error e) :
    (book_flight db req).1 = db := by
  unfold book_flight at h ⊢
  cases hc : book_check db req.flight_id req.travel_date with
  | none =>
    cases hf : db.flights.find?
        (fun f => f.flight_id == req.flight_id && !f.is_deleted) with
    | none => simp only [hc, hf]
    | some f =>
      simp only [hc, hf] at h ⊢
      by_cases hlt : (f.total_seats : Int) < (req.seats_required : Int)
      · rw [if_pos hlt]
      · rw [if_neg hlt] at h; exact Except.noConfusion h
  | some t =>
    obtain ⟨avail, price, fdate⟩ := t
    simp only [hc] at h ⊢
    by_cases hlt : avail < (req.seats_required : Int)
    · rw [if_pos hlt]
    · rw [if_neg hlt] at h; exact Except.noConfusion h

/-- C4 witness: booking an unknown flight on the empty reference store fails
with `flightNotFound` and leaves the store untouched. -/
theorem C4_book_failure_witness :
    (book_flight dbRef { reqMismatch with flight_id := 9 }).2 =
      .error BookErr.flightNotFound ∧
    (book_flight dbRef { reqMismatch with flight_id := 9 }).1 = dbRef :=
  ⟨by decide,
   C4_book_failure_leaves_state_unchanged dbRef { reqMismatch with flight_id := 9 }
     BookErr.flightNotFound (by decide)⟩

/-- C10. Every successful `book_flight` call appends exactly one `Booking`
row, and that row's traveler/user id is the constant `1`, independent of the
request: the source hard-codes `1` as the `user_id` bind parameter. -/
theorem C10_booking_user_id_constant_one (db : DB) (req : BookingRequest)
    (resp : BookingResponse) (h : (book_flight db req).2 = .ok resp) :
    ∃ bk : Booking, (book_flight db req).1.bookings = db.bookings ++ [bk] ∧
      bk.user_id = 1 ∧ bk.booking_id = resp.booking_id := by
  unfold book_flight at h ⊢
  cases hc : book_check db req.flight_id req.travel_date with
  | none =>
    cases hf : db.flights.find?
        (fun f => f.flight_id == req.flight_id && !f.is_deleted) with
    | none => simp only [hc, hf] at h; exact Except.noConfusion h
    | some f =>
      simp only [hc, hf] at h ⊢
      by_cases hlt : (f.total_seats : Int) < (req.seats_required : Int)
      · rw [if_pos hlt] at h; exact Except.noConfusion h
      · rw [if_neg hlt] at h ⊢
        obtain rfl := Except.ok.inj h
        exact ⟨_, by rw [debit_instance_bookings, add_passengers_bookings], rfl, rfl⟩
  | some t =>
    obtain ⟨avail, price, fdate⟩ := t
    simp only [hc] at h ⊢
    by_cases hlt : avail < (req.seats_required : Int)
    · rw [if_pos hlt] at h; exact Except.noConfusion h
    · rw [if_neg hlt] at h ⊢
      obtain rfl := Except.ok.inj h
      exact ⟨_, by rw [debit_instance_bookings, add_passengers_bookings], rfl, rfl⟩

/-- Advancing a request by zero days leaves it unchanged. -/
theorem advance_request_zero (req : FlightSearchRequest) :
    advance_request req 0 = req := by
  unfold advance_request; cases req; simp

/-- C8. `search_all_flights` coincides with the spec's description: the
direct results for the requested date; if fewer than `limit`, the connecting
results for the same date appended up to the shortfall; if still fewer, the
same two-stage search for exactly one following calendar day appended; the
final list truncated to `limit` in stage-by-stage order. No third day is
consulted: the right-hand side mentions only the request's date and its
successor. -/
theorem C8_search_all_matches_spec (db : DB) (req : FlightSearchRequest) :
    search_all_flights db req = search_all_per_spec db req := by
  have hlim : ∀ off, (advance_request req off).limit = req.limit := fun _ => rfl
  unfold search_all_flights search_all_per_spec two_stage_per_spec
  simp only [search_all_go, advance_request_zero, hlim, List.nil_append]
  cases hd : search_direct_flights db req with
  | error e => rfl
  | ok d =>
    dsimp only
    by_cases h1 : d.length < req.limit
    · rw [if_pos h1, if_pos h1]
      cases hc : search_connecting_flights db req with
      | error e => rfl
      | ok c =>
        dsimp only
        by_cases h2 : req.limit ≤ (d ++ c.take (req.limit - d.length)).length
        · rw [if_pos h2, if_neg (by omega)]
        · rw [if_neg h2, if_pos (by omega)]
          cases hd1 : search_direct_flights db (advance_request req 1) with
          | error e => rfl
          | ok d1 =>
            dsimp only
            by_cases h3 : d1.length < req.limit
            · rw [if_pos h3, if_pos h3]
              cases hc1 : search_connecting_flights db (advance_request req 1) with
              | error e => rfl
              | ok c1 =>
                dsimp only
                simp only [List.append_assoc, ite_self]
            · rw [if_neg h3, if_neg h3]
              dsimp only
              simp only [List.append_nil, List.append_assoc, ite_self]
    · rw [if_neg h1, if_neg h1]
      dsimp only
      simp only [List.append_nil]
      rw [if_pos (by omega), if_neg h1]

/-- C10 witness: a concrete successful booking on the reference store
creates a row with user id 1. -/
theorem C10_booking_user_id_witness :
    ∃ bk : Booking, (book_flight dbRef reqBalanced).1.bookings =
      dbRef.bookings ++ [bk] ∧ bk.user_id = 1 ∧ bk.booking_id = 1 :=
  C10_booking_user_id_constant_one dbRef reqBalanced
    { booking_id := 1, status := "confirmed", total_price := 20
      message := "Successfully booked 2 seats" } (by decide)

/-- C6 (amended). `cancel_bookings` validation: on any failure the store is
unchanged; an empty id list is rejected; when no id matches any booking the
failure is the generic `noValidBookings` condition (without ids); when some
but not all ids match, the failure lists exactly the unmatched ids; when all
ids match and some matched booking is already cancelled, the failure lists
exactly those ids. -/
theorem C6_cancel_bookings_validation (db : DB) (ids : List Nat) :
    (∀ e, (cancel_bookings db ids).2 = .error e → (cancel_bookings db ids).1 = db) ∧
    (ids = [] → (cancel_bookings db ids).2 = .error .noIdsProvided) ∧
    (ids ≠ [] → matched_bookings db ids = [] →
      (cancel_bookings db ids).2 = .error .noValidBookings) ∧
    (ids ≠ [] → matched_bookings db ids ≠ [] → unmatched_ids db ids ≠ [] →
      (cancel_bookings db ids).2 = .error (.bookingsNotFound (unmatched_ids db ids))) ∧
    (ids ≠ [] → matched_bookings db ids ≠ [] → unmatched_ids db ids = [] →
      already_cancelled_ids db ids ≠ [] →
      (cancel_bookings db ids).2 =
        .error (.alreadyCancelled (already_cancelled_ids db ids))) := by
  simp only [cancel_bookings]
  split_ifs with h1 h2 h3 h4
  · have hnil : ids = [] := List.isEmpty_iff.mp h1
    exact ⟨fun e _ => rfl, fun _ => rfl,
      fun hne _ => absurd hnil hne, fun hne _ _ => absurd hnil hne,
      fun hne _ _ _ => absurd hnil hne⟩
  · have hm : matched_bookings db ids = [] := List.isEmpty_iff.mp h2
    exact ⟨fun e _ => rfl, fun hnil => absurd (by rw [hnil]; rfl) h1,
      fun _ _ => rfl, fun _ hm2 _ => absurd hm hm2, fun _ hm2 _ _ => absurd hm hm2⟩
  · have hu : unmatched_ids db ids ≠ [] := by simpa using h3
    exact ⟨fun e _ => rfl, fun hnil => absurd (by rw [hnil]; rfl) h1,
      fun _ hm => absurd (by rw [hm]; rfl) h2, fun _ _ _ => rfl,
      fun _ _ hu2 _ => absurd hu2 (fun h => hu h)⟩
  · have hu : unmatched_ids db ids = [] := by simpa using h3
    exact ⟨fun e _ => rfl, fun hnil => absurd (by rw [hnil]; rfl) h1,
      fun _ hm => absurd (by rw [hm]; rfl) h2,
      fun _ _ hu2 => absurd hu hu2, fun _ _ _ _ => rfl⟩
  · have hc : already_cancelled_ids db ids = [] := by simpa using h4
    exact ⟨fun e he => he.elim,
      fun hnil => absurd (by rw [hnil]; rfl) h1,
      fun _ hm => absurd (by rw [hm]; rfl) h2,
      fun _ _ hu2 => absurd (by simpa using h3) hu2,
      fun _ _ _ hc2 => absurd hc hc2⟩

/-- C6 witness: with one matching id (1) and one unmatched id (7), the
failure lists exactly the unmatched id 7 and the store is left unchanged. -/
theorem C6_cancel_bookings_validation_witness :
    (cancel_bookings dbConfirmed [1, 7]).2 =
      .error (CancelErr.bookingsNotFound (unmatched_ids dbConfirmed [1, 7])) ∧
    unmatched_ids dbConfirmed [1, 7] = [7] ∧
    (cancel_bookings dbConfirmed [1, 7]).1 = dbConfirmed :=
  ⟨(C6_cancel_bookings_validation dbConfirmed [1, 7]).2.2.2.1
      (by decide) (by decide) (by decide),
   by decide,
   (C6_cancel_bookings_validation dbConfirmed [1, 7]).1
      (CancelErr.bookingsNotFound (unmatched_ids dbConfirmed [1, 7]))
      ((C6_cancel_bookings_validation dbConfirmed [1, 7]).2.2.2.1
        (by decide) (by decide) (by decide))⟩

/-- A pointwise property holds between a list and its map. -/
theorem forall2_map {α : Type} (P : α → α → Prop) (g : α → α) (l : List α)
    (h : ∀ x, P x (g x)) : List.Forall₂ P l (l.map g) := by
  induction l with
  | nil => exact List.Forall₂.nil
  | cons x xs ih => exact List.Forall₂.cons (h x) ih

/-- A reflexive pointwise property holds between a list and itself. -/
theorem forall2_refl {α : Type} (P : α → α → Prop) (l : List α)
    (h : ∀ x, P x x) : List.Forall₂ P l l := by
  induction l with
  | nil => exact List.Forall₂.nil
  | cons x xs ih => exact List.Forall₂.cons (h x) ih

/-- C9 (amended). Frame property of the cancellation manager: neither
`cancel_flight` nor `cancel_bookings` ever deletes a `Booking` or
`Passenger` row or changes a booking's id, flight, user, travel date or
price; `cancel_bookings` also preserves `booking_date`, while
`cancel_flight` may overwrite `booking_date` (with the current time) in
addition to the status. `Forall₂` pairs each original row with the
corresponding row of the result, so row count and order are preserved. -/
theorem C9_frame_amended (db : DB) (fid d : Nat) (ids : List Nat) :
    List.Forall₂ booking_core_eq db.bookings (cancel_flight db fid d).1.bookings ∧
    (cancel_flight db fid d).1.passengers = db.passengers ∧
    List.Forall₂ (fun b b2 => booking_core_eq b b2 ∧ b2.booking_date = b.booking_date)
      db.bookings (cancel_bookings db ids).1.bookings ∧
    (cancel_bookings db ids).1.passengers = db.passengers := by
  refine ⟨?_, ?_, ?_, ?_⟩
  · simp only [cancel_flight]
    split_ifs with h h2
    · exact forall2_refl _ _ (fun b => ⟨rfl, rfl, rfl, rfl, rfl⟩)
    · refine forall2_map _ _ _ (fun b => ?_)
      dsimp only
      split
      · exact ⟨rfl, rfl, rfl, rfl, rfl⟩
      · exact ⟨rfl, rfl, rfl, rfl, rfl⟩
    · refine forall2_map _ _ _ (fun b => ?_)
      dsimp only
      split
      · exact ⟨rfl, rfl, rfl, rfl, rfl⟩
      · exact ⟨rfl, rfl, rfl, rfl, rfl⟩
  · simp only [cancel_flight]
    split_ifs <;> rfl
  · simp only [cancel_bookings]
    split_ifs with h1 h2 h3 h4
    · exact forall2_refl _ _ (fun b => ⟨⟨rfl, rfl, rfl, rfl, rfl⟩, rfl⟩)
    · exact forall2_refl _ _ (fun b => ⟨⟨rfl, rfl, rfl, rfl, rfl⟩, rfl⟩)
    · exact forall2_refl _ _ (fun b => ⟨⟨rfl, rfl, rfl, rfl, rfl⟩, rfl⟩)
    · exact forall2_refl _ _ (fun b => ⟨⟨rfl, rfl, rfl, rfl, rfl⟩, rfl⟩)
    · refine forall2_map _ _ _ (fun b => ?_)
      dsimp only
      split
      · exact ⟨⟨rfl, rfl, rfl, rfl, rfl⟩, rfl⟩
      · exact ⟨⟨rfl, rfl, rfl, rfl, rfl⟩, rfl⟩
  · simp only [cancel_bookings]
    split_ifs <;> rfl

/-- Membership test against a one-element id list. -/
theorem contains_singleton (m k : Nat) : [m].contains k = (k == m) := by
  by_cases h : k = m <;> simp [h]

/-- `pcount` distributes over appended passenger lists. -/
theorem pcount_append (ps qs : List Passenger) (m : Nat) :
    pcount (ps ++ qs) m = pcount ps m + pcount qs m := by
  simp [pcount, List.countP_append]

/-- Passengers all referring to `m` are all counted. -/
theorem pcount_eq_length (qs : List Passenger) (m : Nat)
    (h : ∀ q ∈ qs, q.booking_id = m) : pcount qs m = qs.length := by
  unfold pcount
  induction qs with
  | nil => rfl
  | cons q qs ih =>
    have hq : (q.booking_id == m) = true := by
      simp [h q (List.mem_cons_self q qs)]
    have ht := ih (fun p hp => h p (List.mem_cons_of_mem q hp))
    simp [List.countP_cons, hq, ht]

/-- Passengers with ids below `m` never refer to `m`. -/
theorem pcount_eq_zero_of_lt (ps : List Passenger) (m : Nat)
    (h : ∀ p ∈ ps, p.booking_id < m) : pcount ps m = 0 := by
  unfold pcount
  induction ps with
  | nil => rfl
  | cons p ps ih =>
    have hp : (p.booking_id == m) = false := by
      have := h p (List.mem_cons_self p ps)
      simp; omega
    have ht := ih (fun q hq => h q (List.mem_cons_of_mem p hq))
    simp [List.countP_cons, hp, ht]

/-- `add_passengers` never touches the instance table. -/
theorem add_passengers_instances (ps : List PassengerDetail) :
    ∀ db bid, (add_passengers db bid ps).instances = db.instances := by
  induction ps with
  | nil => intro db bid; rfl
  | cons p ps ih => intro db bid; exact ih _ bid

/-- `add_passengers` never touches the flight table. -/
theorem add_passengers_flights (ps : List PassengerDetail) :
    ∀ db bid, (add_passengers db bid ps).flights = db.flights := by
  induction ps with
  | nil => intro db bid; rfl
  | cons p ps ih => intro db bid; exact ih _ bid

/-- `add_passengers` never changes the booking identity counter. -/
theorem add_passengers_next_booking_id (ps : List PassengerDetail) :
    ∀ db bid, (add_passengers db bid ps).next_booking_id = db.next_booking_id := by
  induction ps with
  | nil => intro db bid; rfl
  | cons p ps ih => intro db bid; exact ih _ bid

/-- `add_passengers` appends one row per passenger detail, all referring
to the given booking id. -/
theorem add_passengers_passengers (ps : List PassengerDetail) :
    ∀ db bid, ∃ qs : List Passenger,
      (add_passengers db bid ps).passengers = db.passengers ++ qs ∧
      qs.length = ps.length ∧ ∀ q ∈ qs, q.booking_id = bid := by
  induction ps with
  | nil => intro db bid; exact ⟨[], by simp [add_passengers], rfl, by simp⟩
  | cons p ps ih =>
    intro db bid
    obtain ⟨qs, h1, h2, h3⟩ := ih
      { db with
        passengers := db.passengers ++
          [{ passenger_id := db.next_passenger_id, booking_id := bid
             name := p.name, age := p.age, gender := p.gender
             passport_no := p.passport_no }]
        next_passenger_id := db.next_passenger_id + 1 } bid
    refine ⟨{ passenger_id := db.next_passenger_id, booking_id := bid
              name := p.name, age := p.age, gender := p.gender
              passport_no := p.passport_no } :: qs, ?_, by simp [h2], ?_⟩
    · rw [add_passengers, h1]; simp
    · intro q hq
      rcases List.mem_cons.mp hq with h | h
      · rw [h]
      · exact h3 q h

/-- `released_seats` distributes over appended booking lists. -/
theorem released_append (ps : List Passenger) (bs cs : List Booking)
    (ids : List Nat) (fid d : Nat) :
    released_seats ps (bs ++ cs) ids fid d =
      released_seats ps bs ids fid d + released_seats ps cs ids fid d := by
  simp [released_seats, List.filter_append]

/-- No seats are released for an id below every stored booking id. -/
theorem released_zero_of_bounded (ps : List Passenger) (bs : List Booking)
    (m fid d : Nat) (h : ∀ b ∈ bs, b.booking_id < m) :
    released_seats ps bs [m] fid d = 0 := by
  unfold released_seats
  have : bs.filter (fun b =>
      [m].contains b.booking_id && b.flight_id == fid && b.travel_date == d) = [] := by
    rw [List.filter_eq_nil_iff]
    intro b hb
    have := h b hb
    simp [contains_singleton]
    intro he
    omega
  rw [this]; rfl

/-- No bookings release no seats. -/
theorem released_nil (ps : List Passenger) (ids : List Nat) (fid d : Nat) :
    released_seats ps [] ids fid d = 0 := rfl

/-- Unfolding equation of `released_seats` on a cons cell. -/
theorem released_cons (ps : List Passenger) (bk : Booking) (bs : List Booking)
    (ids : List Nat) (fid d : Nat) :
    released_seats ps (bk :: bs) ids fid d =
      (if (ids.contains bk.booking_id && bk.flight_id == fid &&
          bk.travel_date == d) = true
       then pcount ps bk.booking_id else 0) + released_seats ps bs ids fid d := by
  unfold released_seats
  rw [List.filter_cons]
  by_cases h : (ids.contains bk.booking_id && bk.flight_id == fid &&
      bk.travel_date == d) = true
  · rw [if_pos h, if_pos h]; simp [pcount]
  · rw [if_neg h, if_neg h]; simp

/-- `released_seats` ignores updates that preserve booking id, flight and
travel date (such as status changes). -/
theorem released_map_invariant (ps : List Passenger) (bs : List Booking)
    (ids : List Nat) (fid d : Nat) (g : Booking → Booking)
    (h : ∀ b, (g b).booking_id = b.booking_id ∧ (g b).flight_id = b.flight_id ∧
      (g b).travel_date = b.travel_date) :
    released_seats ps (bs.map g) ids fid d = released_seats ps bs ids fid d := by
  induction bs with
  | nil => rfl
  | cons b bs ih =>
    have hb := h b
    rw [List.map_cons]
    show released_seats ps (g b :: bs.map g) ids fid d = _
    unfold released_seats at ih ⊢
    rw [List.filter_cons, List.filter_cons, hb.1, hb.2.1, hb.2.2]
    by_cases hc : (ids.contains b.booking_id && b.flight_id == fid &&
        b.travel_date == d) = true
    · rw [if_pos hc, if_pos hc]
      simp only [List.map_cons, List.sum_cons, hb.1]
      rw [ih]
    · have hc2 : (ids.contains b.booking_id && b.flight_id == fid &&
          b.travel_date == d) = false := by
        cases hx : (ids.contains b.booking_id && b.flight_id == fid &&
          b.travel_date == d) with
        | false => rfl
        | true => exact absurd hx hc
      rw [if_neg hc, if_neg hc]
      exact ih



/-- A map that fixes every element of a list is the identity. -/
theorem map_id_of_eq {α : Type} (l : List α) (g : α → α)
    (h : ∀ i ∈ l, g i = i) : l.map g = l := by
  induction l with
  | nil => rfl
  | cons x xs ih =>
    rw [List.map_cons, h x (List.mem_cons_self x xs),
      ih (fun i hi => h i (List.mem_cons_of_mem x hi))]

/-- `debit_instance` never touches the passenger table. -/
theorem debit_instance_passengers (db : DB) (fid d n : Nat) :
    (debit_instance db fid d n).passengers = db.passengers := rfl

/-- `debit_instance` never touches the flight table. -/
theorem debit_instance_flights (db : DB) (fid d n : Nat) :
    (debit_instance db fid d n).flights = db.flights := rfl

/-- Unfolding equation for the instance update of `debit_instance`. -/
theorem debit_instance_instances (db : DB) (fid d n : Nat) :
    (debit_instance db fid d n).instances = db.instances.map (fun i =>
      if i.flight_id == fid && i.flight_date == d then
        { i with available_seats := i.available_seats - (n : Int) }
      else i) := rfl

/-- Core round-trip lemma: cancelling the id of a freshly inserted
confirmed booking (fresh id, passenger rows of total count `n`, seats
debited by `n` on its key) succeeds and restores every instance row to its
pre-booking value. -/
theorem cancel_fresh_booking (dbX db4 : DB) (fid d n : Nat) (bk : Booking)
    (qs : List Passenger)
    (hb : ∀ b ∈ dbX.bookings, b.booking_id < dbX.next_booking_id)
    (hp : ∀ p ∈ dbX.passengers, p.booking_id < dbX.next_booking_id)
    (hbkgs : db4.bookings = dbX.bookings ++ [bk])
    (hbid : bk.booking_id = dbX.next_booking_id)
    (hbf : bk.flight_id = fid)
    (hbt : bk.travel_date = d)
    (hbs : bk.status = "confirmed")
    (hpass : db4.passengers = dbX.passengers ++ qs)
    (hqs3 : ∀ q ∈ qs, q.booking_id = dbX.next_booking_id)
    (hqlen : qs.length = n)
    (hinst : db4.instances = dbX.instances.map (fun i =>
      if i.flight_id == fid && i.flight_date == d then
        { i with available_seats := i.available_seats - (n : Int) }
      else i))
    (hflights : db4.flights = dbX.flights) :
    (cancel_bookings db4 [dbX.next_booking_id]).2 = .ok () ∧
    (cancel_bookings db4 [dbX.next_booking_id]).1.instances = dbX.instances ∧
    (cancel_bookings db4 [dbX.next_booking_id]).1.flights = dbX.flights := by
  -- validation facts
  have hmatched : matched_bookings db4 [dbX.next_booking_id] = [bk] := by
    unfold matched_bookings
    rw [hbkgs, List.filter_append]
    have h1 : dbX.bookings.filter
        (fun b => [dbX.next_booking_id].contains b.booking_id) = [] := by
      rw [List.filter_eq_nil_iff]
      intro b hbmem
      rw [contains_singleton]
      have := hb b hbmem
      simp; omega
    have h2 : [bk].filter
        (fun b => [dbX.next_booking_id].contains b.booking_id) = [bk] := by
      rw [List.filter_cons]
      rw [if_pos (by rw [contains_singleton, hbid]; simp)]
      rfl
    rw [h1, h2, List.nil_append]
  have hunmatched : unmatched_ids db4 [dbX.next_booking_id] = [] := by
    unfold unmatched_ids
    have hany : db4.bookings.any
        (fun b => b.booking_id == dbX.next_booking_id) = true := by
      rw [hbkgs, List.any_append]
      have : [bk].any (fun b => b.booking_id == dbX.next_booking_id) = true := by
        simp [hbid]
      rw [this, Bool.or_true]
    have : List.filter
        (fun i => !(db4.bookings.any (fun b => b.booking_id == i)))
        [dbX.next_booking_id] = [] := by
      rw [List.filter_cons, if_neg (by rw [hany]; simp)]
      rfl
    rw [this]
    rfl
  have hcancelled : already_cancelled_ids db4 [dbX.next_booking_id] = [] := by
    unfold already_cancelled_ids
    rw [hmatched, List.filter_cons]
    rw [if_neg (by rw [hbs]; decide)]
    rfl
  -- reduce cancel_bookings on the validated input
  simp only [cancel_bookings, hmatched, hunmatched, hcancelled]
  rw [if_neg (by simp), if_neg (by simp), if_neg (by simp), if_neg (by simp)]
  refine ⟨rfl, ?_, by rw [hflights]⟩
  -- the seat-release map restores every instance row
  show (db4.instances.map _) = dbX.instances
  have hrel : ∀ fid2 d2, released_seats db4.passengers
      (db4.bookings.map (fun b =>
        if [dbX.next_booking_id].contains b.booking_id &&
            !status_like_cancelled b.status then
          { b with status := "cancelled_by_user" }
        else b)) [dbX.next_booking_id] fid2 d2 =
      (if (fid == fid2 && d == d2) = true then n else 0) := by
    intro fid2 d2
    rw [released_map_invariant _ _ _ _ _ _
      (fun b => by split <;> exact ⟨rfl, rfl, rfl⟩)]
    rw [hbkgs, released_append, released_zero_of_bounded _ _ _ _ _ hb,
      released_cons, released_nil]
    have hpc : pcount db4.passengers dbX.next_booking_id = n := by
      rw [hpass, pcount_append,
        pcount_eq_zero_of_lt _ _ hp, pcount_eq_length _ _ hqs3, hqlen]
      omega
    rw [hbid, hbf, hbt, hpc, contains_singleton]
    simp only [beq_self_eq_true, Bool.true_and, Nat.add_zero, Nat.zero_add]
  rw [hinst, List.map_map]
  apply map_id_of_eq
  intro j hj
  simp only [Function.comp]
  by_cases hkey : (j.flight_id == fid && j.flight_date == d) = true
  · rw [if_pos hkey]
    rw [Bool.and_eq_true] at hkey
    have h1 : j.flight_id = fid := eq_of_beq hkey.1
    have h2 : j.flight_date = d := eq_of_beq hkey.2
    have hc2 : (fid == j.flight_id && d == j.flight_date) = true := by
      rw [h1, h2]; simp
    dsimp only
    rw [hrel, hc2, if_pos rfl, Int.sub_add_cancel]
  · have hc2 : (fid == j.flight_id && d == j.flight_date) = false := by
      cases hx : (fid == j.flight_id && d == j.flight_date) with
      | false => rfl
      | true =>
        exfalso
        apply hkey
        rw [Bool.and_eq_true] at hx
        have h1 : fid = j.flight_id := eq_of_beq hx.1
        have h2 : d = j.flight_date := eq_of_beq hx.2
        rw [← h1, ← h2]; simp
    rw [if_neg hkey]
    rw [hrel, hc2]
    simp



/-- `find?` skips a prefix in which it finds nothing. -/
theorem find?_append_none {α : Type} (p : α → Bool) (l1 l2 : List α)
    (h : l1.find? p = none) : (l1 ++ l2).find? p = l2.find? p := by
  induction l1 with
  | nil => rfl
  | cons x xs ih =>
    have hx : p x = false := by
      have := (List.find?_eq_none.mp h) x (List.mem_cons_self x xs)
      cases hpx : p x with
      | false => rfl
      | true => exact absurd hpx this
    rw [List.cons_append, List.find?_cons_of_neg _ (by simp [hx])]
    apply ih
    rw [List.find?_eq_none] at h ⊢
    exact fun y hy => h y (List.mem_cons_of_mem x hy)

/-- If `find?` fails for a weaker predicate it fails for a stronger one. -/
theorem find?_none_of_stronger {α : Type} (p q : α → Bool) (l : List α)
    (himp : ∀ x, q x = true → p x = true) (h : l.find? p = none) :
    l.find? q = none := by
  rw [List.find?_eq_none] at h ⊢
  exact fun x hx hqx => h x hx (himp x hqx)

/-- With primary-key-distinct templates, the active-template lookup and the
plain id lookup agree when the former succeeds. -/
theorem find?_plain_of_strict (l : List Flight) (fid : Nat) (f : Flight)
    (hnd : l.Pairwise (fun a b => a.flight_id ≠ b.flight_id))
    (h : l.find? (fun x => x.flight_id == fid && !x.is_deleted) = some f) :
    l.find? (fun x => x.flight_id == fid) = some f := by
  induction l with
  | nil => simp at h
  | cons x xs ih =>
    rw [List.pairwise_cons] at hnd
    by_cases hx : (x.flight_id == fid) = true
    · rw [@List.find?_cons_of_pos _ (fun y => y.flight_id == fid) x xs hx]
      by_cases hd : x.is_deleted = true
      · exfalso
        have hpredx : (x.flight_id == fid && !x.is_deleted) = false := by
          rw [hd]; simp
        rw [@List.find?_cons_of_neg _
          (fun y => y.flight_id == fid && !y.is_deleted) x xs
          (by simp [hpredx])] at h
        have hfmem := List.mem_of_find?_eq_some h
        have hfpred := List.find?_some h
        rw [Bool.and_eq_true] at hfpred
        have hffid : f.flight_id = fid := eq_of_beq hfpred.1
        exact hnd.1 f hfmem (by rw [eq_of_beq hx, hffid])
      · have hdx : x.is_deleted = false := by
          cases hz : x.is_deleted with
          | false => rfl
          | true => exact absurd hz hd
        rw [@List.find?_cons_of_pos _
          (fun y => y.flight_id == fid && !y.is_deleted) x xs
          (by show (x.flight_id == fid && !x.is_deleted) = true
              rw [hx, hdx]; rfl)] at h
        exact h
    · have hxf : (x.flight_id == fid) = false := by
        cases hz : (x.flight_id == fid) with
        | false => rfl
        | true => exact absurd hz hx
      rw [@List.find?_cons_of_neg _ (fun y => y.flight_id == fid) x xs hx]
      rw [@List.find?_cons_of_neg _
        (fun y => y.flight_id == fid && !y.is_deleted) x xs
        (by simp [hxf])] at h
      exact ih hnd.2 h

/-- Effective availability only reads the instance and flight tables. -/
theorem effective_avail_congr (a b : DB) (h1 : a.instances = b.instances)
    (h2 : a.flights = b.flights) (fid d : Nat) :
    effective_avail_id a fid d = effective_avail_id b fid d := by
  unfold effective_avail_id live_instance total_seats_of
  rw [h1, h2]

/-- An instance row's seat count only reads the instance table. -/
theorem instance_seats_congr (a b : DB) (h : a.instances = b.instances)
    (fid d : Nat) : instance_seats a fid d = instance_seats b fid d := by
  unfold instance_seats any_instance
  rw [h]



/-- `cancel_fresh_booking` specialised to the exact store produced by the
success path of `book_flight`. -/
theorem cancel_fresh_booking_wrapped (dbX : DB) (fid d n bdate tprice : Nat)
    (pd : List PassengerDetail) (bk : Booking) (db2 db4 : DB)
    (hb : ∀ b ∈ dbX.bookings, b.booking_id < dbX.next_booking_id)
    (hp : ∀ p ∈ dbX.passengers, p.booking_id < dbX.next_booking_id)
    (hlen : pd.length = n)
    (hbk : bk = { booking_id := dbX.next_booking_id, flight_id := fid,
                    user_id := 1, booking_date := bdate, travel_date := d,
                    status := "confirmed", total_price := tprice })
    (hdb2 : db2 = { dbX with bookings := dbX.bookings ++ [bk],
                             next_booking_id := dbX.next_booking_id + 1 })
    (hdb4 : db4 = debit_instance (add_passengers db2 dbX.next_booking_id pd)
      fid d n) :
    (cancel_bookings db4 [dbX.next_booking_id]).2 = .ok () ∧
    (cancel_bookings db4 [dbX.next_booking_id]).1.instances = dbX.instances ∧
    (cancel_bookings db4 [dbX.next_booking_id]).1.flights = dbX.flights := by
  obtain ⟨qs, hq1, hq2, hq3⟩ :=
    add_passengers_passengers pd db2 dbX.next_booking_id
  refine cancel_fresh_booking dbX db4 fid d n bk qs hb hp ?_ ?_ ?_ ?_ ?_ ?_ hq3
    ?_ ?_ ?_
  · rw [hdb4, debit_instance_bookings, add_passengers_bookings, hdb2]
  · rw [hbk]
  · rw [hbk]
  · rw [hbk]
  · rw [hbk]
  · rw [hdb4, debit_instance_passengers, hq1, hdb2]
  · rw [hq2, hlen]
  · rw [hdb4, debit_instance_instances, add_passengers_instances, hdb2]
  · rw [hdb4, debit_instance_flights, add_passengers_flights, hdb2]

/-- C3 (amended). For every well-formed store and booking request whose
passenger list has exactly `seats_required` entries, a successful
`book_flight` followed by `cancel_bookings` of the new booking id succeeds
and restores the effective availability of the booked (template, date) key
to its exact pre-booking value; when the instance row already existed, its
`available_seats` value itself is restored exactly. -/
theorem C3_roundtrip_restores_availability (db : DB) (req : BookingRequest)
    (resp : BookingResponse) (hwf : db_wf db)
    (hbal : req.passenger_details.length = req.seats_required)
    (hok : (book_flight db req).2 = .ok resp) :
    (cancel_bookings (book_flight db req).1 [resp.booking_id]).2 = .ok () ∧
    effective_avail_id (cancel_bookings (book_flight db req).1 [resp.booking_id]).1
        req.flight_id req.travel_date =
      effective_avail_id db req.flight_id req.travel_date ∧
    (∀ a, instance_seats db req.flight_id req.travel_date = some a →
      instance_seats (cancel_bookings (book_flight db req).1 [resp.booking_id]).1
        req.flight_id req.travel_date = some a) := by
  obtain ⟨hwb, hwp, hwfl⟩ := hwf
  cases hi : any_instance db req.flight_id req.travel_date with
  | some i =>
    have hi2 := hi
    unfold any_instance at hi2
    have hki := List.find?_some hi2
    have hkey : (i.flight_id == req.flight_id &&
        i.flight_date == req.travel_date) = true := hki
    rw [Bool.and_eq_true] at hkey
    have hid : i.flight_date = req.travel_date := eq_of_beq hkey.2
    cases hf0 : db.flights.find? (fun f => f.flight_id == req.flight_id) with
    | none =>
      exfalso
      have hstrict : db.flights.find?
          (fun f => f.flight_id == req.flight_id && !f.is_deleted) = none := by
        apply find?_none_of_stronger (fun f => f.flight_id == req.flight_id) _ _ _ hf0
        intro x hx
        rw [Bool.and_eq_true] at hx
        exact hx.1
      have hbc : book_check db req.flight_id req.travel_date = none := by
        simp [book_check, hi, hf0]
      have hfail : (book_flight db req).2 = .error .flightNotFound := by
        simp only [book_flight, hbc, hstrict]
      rw [hfail] at hok
      exact Except.noConfusion hok
    | some f0 =>
      have hbc : book_check db req.flight_id req.travel_date =
          some (i.available_seats, f0.base_price, i.flight_date) := by
        simp [book_check, hi, hf0]
      by_cases hlt : i.available_seats < (req.seats_required : Int)
      · exfalso
        have hfail : (book_flight db req).2 =
            .error (.insufficientSeats i.available_seats req.seats_required) := by
          simp only [book_flight, hbc]
          rw [if_pos hlt]
        rw [hfail] at hok
        exact Except.noConfusion hok
      · simp only [book_flight, hbc] at hok ⊢
        rw [if_neg hlt] at hok ⊢
        obtain rfl := Except.ok.inj hok
        dsimp only
        rw [hid]
        obtain ⟨hc1, hc2, hc3⟩ := cancel_fresh_booking_wrapped db req.flight_id
          req.travel_date req.seats_required db.now
          (f0.base_price * req.seats_required) req.passenger_details _ _ _
          hwb hwp hbal rfl rfl rfl
        refine ⟨hc1, ?_, ?_⟩
        · exact effective_avail_congr _ db hc2 hc3 req.flight_id req.travel_date
        · intro a ha
          rw [instance_seats_congr _ db hc2 req.flight_id req.travel_date]
          exact ha
  | none =>
    have hbc : book_check db req.flight_id req.travel_date = none := by
      simp [book_check, hi]
    have hlive_db : db.instances.find? (fun i =>
        i.flight_id == req.flight_id && i.flight_date == req.travel_date &&
        !i.is_deleted) = none := by
      apply find?_none_of_stronger
        (fun i => i.flight_id == req.flight_id && i.flight_date == req.travel_date)
        _ _ ?_ (by unfold any_instance at hi; exact hi)
      intro x hx
      rw [Bool.and_eq_true] at hx
      exact hx.1
    cases hfs : db.flights.find?
        (fun f => f.flight_id == req.flight_id && !f.is_deleted) with
    | none =>
      exfalso
      have hfail : (book_flight db req).2 = .error .flightNotFound := by
        simp only [book_flight, hbc, hfs]
      rw [hfail] at hok
      exact Except.noConfusion hok
    | some f =>
      by_cases hlt : (f.total_seats : Int) < (req.seats_required : Int)
      · exfalso
        have hfail : (book_flight db req).2 =
            .error (.insufficientSeats (f.total_seats : Int) req.seats_required) := by
          simp only [book_flight, hbc, hfs]
          rw [if_pos hlt]
        rw [hfail] at hok
        exact Except.noConfusion hok
      · simp only [book_flight, hbc, hfs] at hok ⊢
        rw [if_neg hlt] at hok ⊢
        obtain rfl := Except.ok.inj hok
        dsimp only
        obtain ⟨hc1, hc2, hc3⟩ := cancel_fresh_booking_wrapped
          { db with
            instances := db.instances ++
              [{ flight_id := req.flight_id, flight_date := req.travel_date,
                 available_seats := (f.total_seats : Int), is_deleted := false }] }
          req.flight_id req.travel_date req.seats_required db.now
          (f.base_price * req.seats_required) req.passenger_details _ _ _
          hwb hwp hbal rfl rfl rfl
        have hfind : live_instance
            { db with
              instances := db.instances ++
                [{ flight_id := req.flight_id, flight_date := req.travel_date,
                   available_seats := (f.total_seats : Int), is_deleted := false }] }
            req.flight_id req.travel_date = some
              { flight_id := req.flight_id, flight_date := req.travel_date,
                available_seats := (f.total_seats : Int), is_deleted := false } := by
          unfold live_instance
          dsimp only
          rw [find?_append_none _ _ _ hlive_db]
          simp
        refine ⟨hc1, ?_, ?_⟩
        · have e2 : effective_avail_id
              { db with
                instances := db.instances ++
                  [{ flight_id := req.flight_id, flight_date := req.travel_date,
                     available_seats := (f.total_seats : Int), is_deleted := false }] }
              req.flight_id req.travel_date = (f.total_seats : Int) := by
            unfold effective_avail_id
            rw [hfind]
          have e3 : effective_avail_id db req.flight_id req.travel_date =
              (f.total_seats : Int) := by
            unfold effective_avail_id live_instance
            rw [hlive_db]
            unfold total_seats_of
            rw [find?_plain_of_strict db.flights req.flight_id f hwfl hfs]
          exact (effective_avail_congr _ _ hc2 hc3 req.flight_id
            req.travel_date).trans (e2.trans e3.symm)
        · intro a ha
          exfalso
          unfold instance_seats at ha
          rw [hi] at ha
          exact Option.noConfusion ha



/-- C3 witness: on the reference store, booking 2 seats with 2 passengers
and cancelling the resulting booking id restores effective availability. -/
theorem C3_roundtrip_witness :
    db_wf dbRef ∧
    (book_flight dbRef reqBalanced).2 = .ok
      { booking_id := 1, status := "confirmed", total_price := 20,
        message := "Successfully booked 2 seats" } ∧
    (cancel_bookings (book_flight dbRef reqBalanced).1 [1]).2 = .ok () ∧
    effective_avail_id (cancel_bookings (book_flight dbRef reqBalanced).1 [1]).1
      1 10 = effective_avail_id dbRef 1 10 :=
  ⟨by decide, by decide,
   (C3_roundtrip_restores_availability dbRef reqBalanced
      { booking_id := 1, status := "confirmed", total_price := 20,
        message := "Successfully booked 2 seats" }
      (by decide) (by decide) (by decide)).1,
   (C3_roundtrip_restores_availability dbRef reqBalanced
      { booking_id := 1, status := "confirmed", total_price := 20,
        message := "Successfully booked 2 seats" }
      (by decide) (by decide) (by decide)).2.1⟩


theorem seat_sum_nil (ps : List Passenger) (fid d : Nat) :
    seat_sum ps [] fid d = 0 := rfl

theorem seat_sum_cons (ps : List Passenger) (b : Booking) (bs : List Booking)
    (fid d : Nat) :
    seat_sum ps (b :: bs) fid d =
      (if (b.flight_id == fid && b.travel_date == d &&
          b.status == "confirmed") = true
       then pcount ps b.booking_id else 0) + seat_sum ps bs fid d := by
  unfold seat_sum
  rw [List.filter_cons]
  by_cases h : (b.flight_id == fid && b.travel_date == d &&
      b.status == "confirmed") = true
  · rw [if_pos h, if_pos h]; simp [pcount]
  · rw [if_neg h, if_neg h]; simp

theorem seat_sum_append (ps : List Passenger) (bs cs : List Booking)
    (fid d : Nat) :
    seat_sum ps (bs ++ cs) fid d =
      seat_sum ps bs fid d + seat_sum ps cs fid d := by
  simp [seat_sum, List.filter_append]

theorem seat_sum_congr_ps (ps ps2 : List Passenger) (bs : List Booking)
    (fid d : Nat)
    (h : ∀ b ∈ bs, pcount ps2 b.booking_id = pcount ps b.booking_id) :
    seat_sum ps2 bs fid d = seat_sum ps bs fid d := by
  induction bs with
  | nil => rfl
  | cons b bs ih =>
    rw [seat_sum_cons, seat_sum_cons,
      ih (fun x hx => h x (List.mem_cons_of_mem b hx))]
    by_cases hc : (b.flight_id == fid && b.travel_date == d &&
        b.status == "confirmed") = true
    · rw [if_pos hc, if_pos hc, h b (List.mem_cons_self b bs)]
    · rw [if_neg hc, if_neg hc]

theorem seat_sum_zero_of_no_confirmed (ps : List Passenger) (bs : List Booking)
    (fid d : Nat)
    (h : ∀ b ∈ bs, b.flight_id = fid → b.travel_date = d →
      b.status ≠ "confirmed") :
    seat_sum ps bs fid d = 0 := by
  induction bs with
  | nil => rfl
  | cons b bs ih =>
    rw [seat_sum_cons, ih (fun x hx => h x (List.mem_cons_of_mem b hx))]
    have hc : (b.flight_id == fid && b.travel_date == d &&
        b.status == "confirmed") = false := by
      cases hx : (b.flight_id == fid && b.travel_date == d &&
          b.status == "confirmed") with
      | false => rfl
      | true =>
        exfalso
        rw [Bool.and_eq_true, Bool.and_eq_true] at hx
        exact h b (List.mem_cons_self b bs) (eq_of_beq hx.1.1)
          (eq_of_beq hx.1.2) (eq_of_beq hx.2)
    rw [hc]
    simp

theorem seat_sum_map_cf_other (ps : List Passenger) (bs : List Booking)
    (fid d now fid2 d2 : Nat) (hne : ¬(fid2 = fid ∧ d2 = d)) :
    seat_sum ps (bs.map (fun b : Booking =>
      if b.flight_id == fid && b.travel_date == d && b.status != "cancelled" then
        { b with status := "cancelled_by_airline", booking_date := now }
      else b)) fid2 d2 = seat_sum ps bs fid2 d2 := by
  induction bs with
  | nil => rfl
  | cons b bs ih =>
    rw [List.map_cons, seat_sum_cons, seat_sum_cons, ih]
    have hc2 : (b.flight_id == fid2 && b.travel_date == d2 &&
        b.status == "confirmed") = true →
        ¬(b.flight_id = fid ∧ b.travel_date = d) := by
      intro hx hk
      rw [Bool.and_eq_true, Bool.and_eq_true] at hx
      exact hne ⟨(eq_of_beq hx.1.1).symm.trans hk.1,
        (eq_of_beq hx.1.2).symm.trans hk.2⟩
    by_cases hb : (b.flight_id == fid && b.travel_date == d &&
        b.status != "cancelled") = true
    · rw [if_pos hb]
      dsimp only
      rw [Bool.and_eq_true, Bool.and_eq_true] at hb
      have hbf : b.flight_id = fid := eq_of_beq hb.1.1
      have hbd : b.travel_date = d := eq_of_beq hb.1.2
      have hL : (b.flight_id == fid2 && b.travel_date == d2 &&
          (("cancelled_by_airline" : String) == "confirmed")) = false := by
        rw [show (("cancelled_by_airline" : String) == "confirmed") = false
          from by decide, Bool.and_false]
      have hR : (b.flight_id == fid2 && b.travel_date == d2 &&
          b.status == "confirmed") = false := by
        cases hx : (b.flight_id == fid2 && b.travel_date == d2 &&
            b.status == "confirmed") with
        | false => rfl
        | true => exact absurd ⟨hbf, hbd⟩ (hc2 hx)
      rw [hL, hR]
    · rw [if_neg hb]
  
theorem seat_sum_map_cf_key (ps : List Passenger) (bs : List Booking)
    (fid d now : Nat) :
    seat_sum ps (bs.map (fun b : Booking =>
      if b.flight_id == fid && b.travel_date == d && b.status != "cancelled" then
        { b with status := "cancelled_by_airline", booking_date := now }
      else b)) fid d = 0 := by
  induction bs with
  | nil => rfl
  | cons b bs ih =>
    rw [List.map_cons, seat_sum_cons, ih]
    by_cases hb : (b.flight_id == fid && b.travel_date == d &&
        b.status != "cancelled") = true
    · rw [if_pos hb]
      dsimp only
      have hL : (b.flight_id == fid && b.travel_date == d &&
          (("cancelled_by_airline" : String) == "confirmed")) = false := by
        rw [show (("cancelled_by_airline" : String) == "confirmed") = false
          from by decide, Bool.and_false]
      rw [hL]
      simp
    · rw [if_neg hb]
      have hc : (b.flight_id == fid && b.travel_date == d &&
          b.status == "confirmed") = false := by
        cases h1 : (b.flight_id == fid) <;>
          cases h2 : (b.travel_date == d) <;>
          cases h3 : (b.status == "confirmed") <;> simp_all
      rw [hc]
      simp

theorem pcount_eq_zero_of_ne (ps : List Passenger) (m : Nat)
    (h : ∀ p ∈ ps, p.booking_id ≠ m) : pcount ps m = 0 := by
  unfold pcount
  induction ps with
  | nil => rfl
  | cons p ps ih =>
    have hp : (p.booking_id == m) = false := by
      have := h p (List.mem_cons_self p ps)
      simp [this]
    have ht := ih (fun q hq => h q (List.mem_cons_of_mem p hq))
    simp [List.countP_cons, hp, ht]

theorem seat_sum_append_ps_frozen (ps qs : List Passenger) (bs : List Booking)
    (fid d nid : Nat)
    (hq : ∀ q ∈ qs, q.booking_id = nid)
    (hb : ∀ b ∈ bs, b.booking_id < nid) :
    seat_sum (ps ++ qs) bs fid d = seat_sum ps bs fid d := by
  apply seat_sum_congr_ps
  intro b hbm
  have h0 : pcount qs b.booking_id = 0 :=
    pcount_eq_zero_of_ne qs b.booking_id (fun q hqm => by
      rw [hq q hqm]
      have := hb b hbm
      omega)
  rw [pcount_append, h0]
  omega

theorem pairwise_key_unique (l : List FlightInstance)
    (hnd : l.Pairwise (fun i j =>
      ¬(i.flight_id = j.flight_id ∧ i.flight_date = j.flight_date)))
    (a b : FlightInstance) (ha : a ∈ l) (hb : b ∈ l)
    (hk : a.flight_id = b.flight_id ∧ a.flight_date = b.flight_date) :
    a = b := by
  induction l with
  | nil => cases ha
  | cons x xs ih =>
    rw [List.pairwise_cons] at hnd
    rcases List.mem_cons.mp ha with rfl | ha2
    · rcases List.mem_cons.mp hb with rfl | hb2
      · rfl
      · exact absurd hk (hnd.1 b hb2)
    · rcases List.mem_cons.mp hb with rfl | hb2
      · exact absurd ⟨hk.1.symm, hk.2.symm⟩ (hnd.1 a ha2)
      · exact ih hnd.2 ha2 hb2

theorem seat_sum_map_cb (ps : List Passenger) (bs : List Booking)
    (ids : List Nat) (fid2 d2 : Nat)
    (hconf : ∀ b ∈ bs, ids.contains b.booking_id = true →
      b.status = "confirmed") :
    seat_sum ps (bs.map (fun b : Booking =>
      if ids.contains b.booking_id && !status_like_cancelled b.status then
        { b with status := "cancelled_by_user" }
      else b)) fid2 d2 + released_seats ps bs ids fid2 d2 =
    seat_sum ps bs fid2 d2 := by
  induction bs with
  | nil => rfl
  | cons b bs ih =>
    have ih2 := ih (fun x hx hx2 => hconf x (List.mem_cons_of_mem b hx) hx2)
    rw [List.map_cons, seat_sum_cons, released_cons, seat_sum_cons]
    by_cases hc : ids.contains b.booking_id = true
    · have hbs : b.status = "confirmed" := hconf b (List.mem_cons_self b bs) hc
      have hcond : (ids.contains b.booking_id &&
          !status_like_cancelled b.status) = true := by
        rw [hc, hbs]
        decide
      rw [if_pos hcond]
      dsimp only
      rw [show (("cancelled_by_user" : String) == "confirmed") = false from
        by decide, Bool.and_false, if_neg (show ¬(false = true) from by simp)]
      rw [hc, Bool.true_and, hbs]
      rw [show (("confirmed" : String) == "confirmed") = true from by decide,
        Bool.and_true]
      omega
    · have hcf : ids.contains b.booking_id = false := by
        cases hx : ids.contains b.booking_id with
        | false => rfl
        | true => exact absurd hx hc
      rw [hcf]
      rw [Bool.false_and]
      rw [if_neg (show ¬(false = true) from by simp)]
      rw [Bool.false_and, Bool.false_and]
      rw [if_neg (show ¬(false = true) from by simp)]
      omega

theorem total_seats_of_update (db : DB) (ins : List FlightInstance)
    (bks : List Booking) (fid : Nat) :
    total_seats_of { db with instances := ins, bookings := bks } fid =
      total_seats_of db fid := rfl

theorem cf_inst_fid (fid d : Nat) (x : FlightInstance) :
    (if x.flight_id == fid && x.flight_date == d then
      ({ x with is_deleted := true, available_seats := 0 } : FlightInstance)
    else x).flight_id = x.flight_id := by
  split <;> rfl

theorem cf_inst_fdate (fid d : Nat) (x : FlightInstance) :
    (if x.flight_id == fid && x.flight_date == d then
      ({ x with is_deleted := true, available_seats := 0 } : FlightInstance)
    else x).flight_date = x.flight_date := by
  split <;> rfl

theorem state_inv_cancelF (db : DB) (fid d : Nat) (hinv : state_inv db) :
    state_inv (cancel_flight db fid d).1 := by
  obtain ⟨hfl, hin, hbb, hpb, hsc, hci, hsb⟩ := hinv
  simp only [cancel_flight]
  split_ifs with hguard hany
  · exact ⟨hfl, hin, hbb, hpb, hsc, hci, hsb⟩
  · -- key row(s) exist: bookings remapped, matching instances zeroed and deleted
    refine ⟨hfl, ?_, ?_, hpb, ?_, ?_, ?_⟩
    · refine List.Pairwise.map _ ?_ hin
      intro a b hab hk
      apply hab
      simp only [cf_inst_fid, cf_inst_fdate] at hk
      exact hk
    · intro b hb
      obtain ⟨b0, hb0, rfl⟩ := List.mem_map.mp hb
      by_cases hx : (b0.flight_id == fid && b0.travel_date == d &&
          b0.status != "cancelled") = true
      · rw [if_pos hx]; exact hbb b0 hb0
      · rw [if_neg hx]; exact hbb b0 hb0
    · intro b hb
      obtain ⟨b0, hb0, rfl⟩ := List.mem_map.mp hb
      by_cases hx : (b0.flight_id == fid && b0.travel_date == d &&
          b0.status != "cancelled") = true
      · rw [if_pos hx]; right; right; rfl
      · rw [if_neg hx]; exact hsc b0 hb0
    · intro b hb hconf
      obtain ⟨b0, hb0, rfl⟩ := List.mem_map.mp hb
      by_cases hx : (b0.flight_id == fid && b0.travel_date == d &&
          b0.status != "cancelled") = true
      · rw [if_pos hx] at hconf
        simp at hconf
      · rw [if_neg hx] at hconf ⊢
        obtain ⟨i0, hi0, hik⟩ := hci b0 hb0 hconf
        refine ⟨_, List.mem_map_of_mem _ hi0, ?_⟩
        have h1 := cf_inst_fid fid d i0
        have h2 := cf_inst_fdate fid d i0
        exact ⟨h1.trans hik.1, h2.trans hik.2⟩
    · intro j hj
      obtain ⟨j0, hj0, rfl⟩ := List.mem_map.mp hj
      obtain ⟨hlow, hbal, hdel⟩ := hsb j0 hj0
      dsimp only
      rw [total_seats_of_update]
      by_cases hk : j0.flight_id = fid ∧ j0.flight_date = d
      · have hkk : (j0.flight_id == fid && j0.flight_date == d) = true := by
          rw [hk.1, hk.2]; simp
        rw [if_pos hkk]
        dsimp only
        rw [hk.1, hk.2, seat_sum_map_cf_key]
        refine ⟨le_refl 0, by omega, fun _ => ⟨rfl, rfl⟩⟩
      · have hcond : ¬((j0.flight_id == fid && j0.flight_date == d) = true) := by
          intro hx
          rw [Bool.and_eq_true] at hx
          exact hk ⟨eq_of_beq hx.1, eq_of_beq hx.2⟩
        rw [if_neg hcond]
        rw [seat_sum_map_cf_other _ _ _ _ _ _ _ hk]
        exact ⟨hlow, hbal, hdel⟩
  · -- no key row: a deleted zero-seat instance row is inserted
    have hnokey : ∀ i ∈ db.instances,
        ¬((i.flight_id == fid && i.flight_date == d) = true) := by
      intro i hi hx
      exact hany (List.any_eq_true.mpr ⟨i, hi, hx⟩)
    refine ⟨hfl, ?_, ?_, hpb, ?_, ?_, ?_⟩
    · dsimp only
      rw [List.pairwise_append]
      refine ⟨hin, by simp, ?_⟩
      intro a ha b hb
      rw [List.mem_singleton] at hb
      subst hb
      intro hk
      exact hnokey a ha (by rw [hk.1, hk.2]; simp)
    · intro b hb
      obtain ⟨b0, hb0, rfl⟩ := List.mem_map.mp hb
      by_cases hx : (b0.flight_id == fid && b0.travel_date == d &&
          b0.status != "cancelled") = true
      · rw [if_pos hx]; exact hbb b0 hb0
      · rw [if_neg hx]; exact hbb b0 hb0
    · intro b hb
      obtain ⟨b0, hb0, rfl⟩ := List.mem_map.mp hb
      by_cases hx : (b0.flight_id == fid && b0.travel_date == d &&
          b0.status != "cancelled") = true
      · rw [if_pos hx]; right; right; rfl
      · rw [if_neg hx]; exact hsc b0 hb0
    · intro b hb hconf
      obtain ⟨b0, hb0, rfl⟩ := List.mem_map.mp hb
      by_cases hx : (b0.flight_id == fid && b0.travel_date == d &&
          b0.status != "cancelled") = true
      · rw [if_pos hx] at hconf
        simp at hconf
      · rw [if_neg hx] at hconf ⊢
        obtain ⟨i0, hi0, hik⟩ := hci b0 hb0 hconf
        exact ⟨i0, List.mem_append_left _ hi0, hik⟩
    · intro j hj
      dsimp only at hj ⊢
      rw [total_seats_of_update]
      rcases List.mem_append.mp hj with hj0 | hj1
      · obtain ⟨hlow, hbal, hdel⟩ := hsb j hj0
        have hk : ¬(j.flight_id = fid ∧ j.flight_date = d) := fun hk =>
          hnokey j hj0 (by rw [hk.1, hk.2]; simp)
        rw [seat_sum_map_cf_other _ _ _ _ _ _ _ hk]
        exact ⟨hlow, hbal, hdel⟩
      · rw [List.mem_singleton] at hj1
        subst hj1
        dsimp only
        rw [seat_sum_map_cf_key]
        refine ⟨le_refl 0, by omega, fun _ => ⟨rfl, rfl⟩⟩

theorem state_inv_cancelB (db : DB) (ids : List Nat) (hinv : state_inv db) :
    state_inv (cancel_bookings db ids).1 := by
  obtain ⟨hfl, hin, hbb, hpb, hsc, hci, hsb⟩ := hinv
  simp only [cancel_bookings]
  split_ifs with h1 h2 h3 h4
  · exact ⟨hfl, hin, hbb, hpb, hsc, hci, hsb⟩
  · exact ⟨hfl, hin, hbb, hpb, hsc, hci, hsb⟩
  · exact ⟨hfl, hin, hbb, hpb, hsc, hci, hsb⟩
  · exact ⟨hfl, hin, hbb, hpb, hsc, hci, hsb⟩
  · -- success branch: every matched booking is confirmed
    have hemptyA : already_cancelled_ids db ids = [] := by
      apply List.isEmpty_iff.mp
      cases he : (already_cancelled_ids db ids).isEmpty
      · exact absurd (by rw [he]; rfl) h4
      · rfl
    have hconf : ∀ b ∈ db.bookings, ids.contains b.booking_id = true →
        b.status = "confirmed" := by
      intro b hb hid
      have hmb : b ∈ matched_bookings db ids := List.mem_filter.mpr ⟨hb, hid⟩
      have hnc : status_is_cancelled b.status = false := by
        cases hsi : status_is_cancelled b.status
        · rfl
        · exfalso
          have hmem : b.booking_id ∈ already_cancelled_ids db ids :=
            List.mem_map_of_mem _ (List.mem_filter.mpr ⟨hmb, hsi⟩)
          rw [hemptyA] at hmem
          cases hmem
      rcases hsc b hb with h | h | h
      · exact h
      · rw [h] at hnc; exact absurd hnc (by decide)
      · rw [h] at hnc; exact absurd hnc (by decide)
    refine ⟨hfl, ?_, ?_, hpb, ?_, ?_, ?_⟩
    · refine List.Pairwise.map _ ?_ hin
      intro a b hab hk
      exact hab hk
    · intro b hb
      obtain ⟨b0, hb0, rfl⟩ := List.mem_map.mp hb
      by_cases hx : (ids.contains b0.booking_id &&
          !status_like_cancelled b0.status) = true
      · rw [if_pos hx]; exact hbb b0 hb0
      · rw [if_neg hx]; exact hbb b0 hb0
    · intro b hb
      obtain ⟨b0, hb0, rfl⟩ := List.mem_map.mp hb
      by_cases hx : (ids.contains b0.booking_id &&
          !status_like_cancelled b0.status) = true
      · rw [if_pos hx]; right; left; rfl
      · rw [if_neg hx]; exact hsc b0 hb0
    · intro b hb hconf2
      obtain ⟨b0, hb0, rfl⟩ := List.mem_map.mp hb
      by_cases hx : (ids.contains b0.booking_id &&
          !status_like_cancelled b0.status) = true
      · rw [if_pos hx] at hconf2
        simp at hconf2
      · rw [if_neg hx] at hconf2 ⊢
        obtain ⟨i0, hi0, hik⟩ := hci b0 hb0 hconf2
        refine ⟨_, List.mem_map_of_mem _ hi0, ?_⟩
        exact hik
    · intro j hj
      obtain ⟨j0, hj0, rfl⟩ := List.mem_map.mp hj
      obtain ⟨hlow, hbal, hdel⟩ := hsb j0 hj0
      dsimp only
      rw [total_seats_of_update]
      have hg : ∀ b : Booking,
          ((if ids.contains b.booking_id && !status_like_cancelled b.status then
            ({ b with status := "cancelled_by_user" } : Booking)
          else b).booking_id = b.booking_id ∧
          (if ids.contains b.booking_id && !status_like_cancelled b.status then
            ({ b with status := "cancelled_by_user" } : Booking)
          else b).flight_id = b.flight_id ∧
          (if ids.contains b.booking_id && !status_like_cancelled b.status then
            ({ b with status := "cancelled_by_user" } : Booking)
          else b).travel_date = b.travel_date) :=
        fun b => ⟨by split <;> rfl, by split <;> rfl, by split <;> rfl⟩
      rw [released_map_invariant _ _ _ _ _ _ hg]
      have hss := seat_sum_map_cb db.passengers db.bookings ids
        j0.flight_id j0.flight_date hconf
      refine ⟨by omega, by omega, fun hd => ?_⟩
      obtain ⟨ha0, hs0⟩ := hdel hd
      omega

theorem total_seats_of_flights_eq (a b : DB) (h : a.flights = b.flights)
    (fid : Nat) : total_seats_of a fid = total_seats_of b fid := by
  unfold total_seats_of
  rw [h]

theorem debit_instance_next_booking_id (db : DB) (fid d n : Nat) :
    (debit_instance db fid d n).next_booking_id = db.next_booking_id := rfl

theorem dbt_inst_fid (fid d n : Nat) (x : FlightInstance) :
    (if x.flight_id == fid && x.flight_date == d then
      ({ x with available_seats := x.available_seats - (n : Int) } : FlightInstance)
    else x).flight_id = x.flight_id := by
  split <;> rfl

theorem dbt_inst_fdate (fid d n : Nat) (x : FlightInstance) :
    (if x.flight_id == fid && x.flight_date == d then
      ({ x with available_seats := x.available_seats - (n : Int) } : FlightInstance)
    else x).flight_date = x.flight_date := by
  split <;> rfl

theorem book_check_some (db : DB) (fid d : Nat) (avail : Int) (price fdate : Nat)
    (h : book_check db fid d = some (avail, price, fdate)) :
    ∃ i ∈ db.instances, i.flight_id = fid ∧ i.flight_date = d ∧
      i.available_seats = avail ∧ fdate = d := by
  unfold book_check any_instance at h
  cases hai : db.instances.find? (fun i =>
      i.flight_id == fid && i.flight_date == d) with
  | none => rw [hai] at h; simp at h
  | some i =>
    rw [hai] at h
    cases hff : db.flights.find? (fun f => f.flight_id == fid) with
    | none => rw [hff] at h; simp at h
    | some f =>
      rw [hff] at h
      simp only [Option.bind_eq_bind, Option.some_bind, Option.pure_def,
        Option.some.injEq, Prod.mk.injEq] at h
      have hk := List.find?_some hai
      rw [Bool.and_eq_true] at hk
      refine ⟨i, List.mem_of_find?_eq_some hai, eq_of_beq hk.1, eq_of_beq hk.2,
        h.1, ?_⟩
      rw [← h.2.2]
      exact eq_of_beq hk.2

theorem book_check_none_inst (db : DB) (fid d : Nat) (f : Flight)
    (h : book_check db fid d = none)
    (hf : db.flights.find? (fun g => g.flight_id == fid && !g.is_deleted) = some f) :
    any_instance db fid d = none := by
  cases hai : any_instance db fid d with
  | none => rfl
  | some i =>
    exfalso
    unfold book_check at h
    rw [hai] at h
    cases hpf : db.flights.find? (fun g => g.flight_id == fid) with
    | none =>
      rw [List.find?_eq_none] at hpf
      have hmem := List.mem_of_find?_eq_some hf
      have hp := List.find?_some hf
      rw [Bool.and_eq_true] at hp
      exact hpf f hmem hp.1
    | some g => rw [hpf] at h; simp at h

theorem state_inv_book_core (db db1 : DB) (fid d n : Nat) (bk : Booking)
    (pds : List PassengerDetail)
    (hfl : db.flights.Pairwise (fun f g => f.flight_id ≠ g.flight_id))
    (hbb : ∀ b ∈ db.bookings, b.booking_id < db.next_booking_id)
    (hpb : ∀ p ∈ db.passengers, p.booking_id < db.next_booking_id)
    (hsc : ∀ b ∈ db.bookings, b.status = "confirmed" ∨
      b.status = "cancelled_by_user" ∨ b.status = "cancelled_by_airline")
    (hnd1 : db1.instances.Pairwise (fun i j =>
      ¬(i.flight_id = j.flight_id ∧ i.flight_date = j.flight_date)))
    (hbal1 : ∀ i ∈ db1.instances, 0 ≤ i.available_seats ∧
      i.available_seats +
        (seat_sum db.passengers db.bookings i.flight_id i.flight_date : Int) ≤
        (total_seats_of db i.flight_id : Int) ∧
      (i.is_deleted = true → i.available_seats = 0 ∧
        seat_sum db.passengers db.bookings i.flight_id i.flight_date = 0))
    (hcover : ∀ b ∈ db.bookings, b.status = "confirmed" →
      ∃ i ∈ db1.instances, i.flight_id = b.flight_id ∧
        i.flight_date = b.travel_date)
    (hkey : ∃ i ∈ db1.instances, i.flight_id = fid ∧ i.flight_date = d)
    (havail : ∀ i ∈ db1.instances, i.flight_id = fid → i.flight_date = d →
      (n : Int) ≤ i.available_seats)
    (h1n : 1 ≤ n)
    (hplen : pds.length = n)
    (hbid : bk.booking_id = db.next_booking_id)
    (hbf : bk.flight_id = fid) (hbt : bk.travel_date = d)
    (hbs : bk.status = "confirmed")
    (h1fl : db1.flights = db.flights)
    (h1bk : db1.bookings = db.bookings)
    (h1ps : db1.passengers = db.passengers)
    (h1id : db1.next_booking_id = db.next_booking_id) :
    state_inv (debit_instance (add_passengers
      { db1 with bookings := db1.bookings ++ [bk],
                 next_booking_id := db1.next_booking_id + 1 }
      db1.next_booking_id pds) fid d n) := by
  obtain ⟨qs, hqp, hqlen, hqb⟩ := add_passengers_passengers pds
    { db1 with bookings := db1.bookings ++ [bk],
               next_booking_id := db1.next_booking_id + 1 }
    db1.next_booking_id
  have h4f : (debit_instance (add_passengers
      { db1 with bookings := db1.bookings ++ [bk],
                 next_booking_id := db1.next_booking_id + 1 }
      db1.next_booking_id pds) fid d n).flights = db.flights := by
    rw [debit_instance_flights, add_passengers_flights]
    exact h1fl
  have h4i : (debit_instance (add_passengers
      { db1 with bookings := db1.bookings ++ [bk],
                 next_booking_id := db1.next_booking_id + 1 }
      db1.next_booking_id pds) fid d n).instances =
      db1.instances.map (fun i =>
        if i.flight_id == fid && i.flight_date == d then
          { i with available_seats := i.available_seats - (n : Int) }
        else i) := by
    rw [debit_instance_instances, add_passengers_instances]
  have h4b : (debit_instance (add_passengers
      { db1 with bookings := db1.bookings ++ [bk],
                 next_booking_id := db1.next_booking_id + 1 }
      db1.next_booking_id pds) fid d n).bookings = db.bookings ++ [bk] := by
    rw [debit_instance_bookings, add_passengers_bookings]
    show db1.bookings ++ [bk] = db.bookings ++ [bk]
    rw [h1bk]
  have h4p : (debit_instance (add_passengers
      { db1 with bookings := db1.bookings ++ [bk],
                 next_booking_id := db1.next_booking_id + 1 }
      db1.next_booking_id pds) fid d n).passengers = db.passengers ++ qs := by
    rw [debit_instance_passengers, hqp]
    show db1.passengers ++ qs = db.passengers ++ qs
    rw [h1ps]
  have h4n : (debit_instance (add_passengers
      { db1 with bookings := db1.bookings ++ [bk],
                 next_booking_id := db1.next_booking_id + 1 }
      db1.next_booking_id pds) fid d n).next_booking_id =
      db.next_booking_id + 1 := by
    rw [debit_instance_next_booking_id, add_passengers_next_booking_id]
    show db1.next_booking_id + 1 = db.next_booking_id + 1
    rw [h1id]
  have hqbid : ∀ q ∈ qs, q.booking_id = bk.booking_id := fun q hq =>
    (hqb q hq).trans (h1id.trans hbid.symm)
  have hqn : pcount qs bk.booking_id = n :=
    (pcount_eq_length qs _ hqbid).trans (hqlen.trans hplen)
  have hps0 : pcount db.passengers bk.booking_id = 0 :=
    pcount_eq_zero_of_lt _ _ (fun p hp => by rw [hbid]; exact hpb p hp)
  have hsfrozen : ∀ k1 k2 : Nat,
      seat_sum (db.passengers ++ qs) db.bookings k1 k2 =
      seat_sum db.passengers db.bookings k1 k2 := fun k1 k2 =>
    seat_sum_append_ps_frozen db.passengers qs db.bookings k1 k2
      db.next_booking_id (fun q hq => (hqbid q hq).trans hbid) hbb
  have hpc : pcount (db.passengers ++ qs) bk.booking_id = n := by
    rw [pcount_append, hps0, hqn]
    omega
  have hckey : (bk.flight_id == fid && bk.travel_date == d &&
      bk.status == "confirmed") = true := by
    rw [hbf, hbt, hbs]; simp
  have hsum_key : seat_sum (db.passengers ++ qs) (db.bookings ++ [bk]) fid d =
      seat_sum db.passengers db.bookings fid d + n := by
    rw [seat_sum_append, hsfrozen, seat_sum_cons, if_pos hckey, seat_sum_nil, hpc]
    omega
  have hsum_other : ∀ k1 k2 : Nat, ¬(k1 = fid ∧ k2 = d) →
      seat_sum (db.passengers ++ qs) (db.bookings ++ [bk]) k1 k2 =
      seat_sum db.passengers db.bookings k1 k2 := by
    intro k1 k2 hk
    have hc2 : (bk.flight_id == k1 && bk.travel_date == k2 &&
        bk.status == "confirmed") = false := by
      cases hq1 : (bk.flight_id == k1) with
      | false => rfl
      | true =>
        cases hq2 : (bk.travel_date == k2) with
        | false => rfl
        | true =>
          exact absurd ⟨(eq_of_beq hq1).symm.trans hbf,
            (eq_of_beq hq2).symm.trans hbt⟩ hk
    rw [seat_sum_append, hsfrozen, seat_sum_cons,
      if_neg (show ¬((bk.flight_id == k1 && bk.travel_date == k2 &&
        bk.status == "confirmed") = true) from by rw [hc2]; simp),
      seat_sum_nil]
    omega
  refine ⟨?_, ?_, ?_, ?_, ?_, ?_, ?_⟩
  · rw [h4f]
    exact hfl
  · rw [h4i]
    refine List.Pairwise.map _ ?_ hnd1
    intro a b hab hk
    apply hab
    simp only [dbt_inst_fid, dbt_inst_fdate] at hk
    exact hk
  · rw [h4b, h4n]
    intro b hb
    rcases List.mem_append.mp hb with hb0 | hb1
    · have := hbb b hb0; omega
    · rw [List.mem_singleton] at hb1
      subst hb1
      omega
  · rw [h4p, h4n]
    intro p hp
    rcases List.mem_append.mp hp with hp0 | hp1
    · have := hpb p hp0; omega
    · have := (hqbid p hp1).trans hbid; omega
  · rw [h4b]
    intro b hb
    rcases List.mem_append.mp hb with hb0 | hb1
    · exact hsc b hb0
    · rw [List.mem_singleton] at hb1
      subst hb1
      left; exact hbs
  · rw [h4b, h4i]
    intro b hb hconf
    rcases List.mem_append.mp hb with hb0 | hb1
    · obtain ⟨i0, hi0, hik⟩ := hcover b hb0 hconf
      refine ⟨_, List.mem_map_of_mem _ hi0, ?_⟩
      have hf1 := dbt_inst_fid fid d n i0
      have hf2 := dbt_inst_fdate fid d n i0
      exact ⟨hf1.trans hik.1, hf2.trans hik.2⟩
    · rw [List.mem_singleton] at hb1
      subst hb1
      obtain ⟨i0, hi0, hik1, hik2⟩ := hkey
      refine ⟨_, List.mem_map_of_mem _ hi0, ?_⟩
      have hf1 := dbt_inst_fid fid d n i0
      have hf2 := dbt_inst_fdate fid d n i0
      exact ⟨hf1.trans (hik1.trans hbf.symm), hf2.trans (hik2.trans hbt.symm)⟩
  · intro j hj
    rw [h4i] at hj
    obtain ⟨j0, hj0, rfl⟩ := List.mem_map.mp hj
    obtain ⟨hl0, hb0, hd0⟩ := hbal1 j0 hj0
    rw [h4b, h4p, total_seats_of_flights_eq _ db h4f]
    by_cases hk : j0.flight_id = fid ∧ j0.flight_date = d
    · have hkk : (j0.flight_id == fid && j0.flight_date == d) = true := by
        rw [hk.1, hk.2]; simp
      rw [hk.1, hk.2] at hb0 hd0
      have hav := havail j0 hj0 hk.1 hk.2
      rw [if_pos hkk]
      dsimp only
      rw [hk.1, hk.2, hsum_key]
      refine ⟨by omega, by omega, fun hd => ?_⟩
      obtain ⟨ha0, hs0⟩ := hd0 hd
      omega
    · have hcond : ¬((j0.flight_id == fid && j0.flight_date == d) = true) := by
        intro hx
        rw [Bool.and_eq_true] at hx
        exact hk ⟨eq_of_beq hx.1, eq_of_beq hx.2⟩
      rw [if_neg hcond, hsum_other j0.flight_id j0.flight_date hk]
      exact ⟨hl0, hb0, hd0⟩

theorem state_inv_book (db : DB) (req : BookingRequest) (hinv : state_inv db)
    (h1n : 1 ≤ req.seats_required)
    (hplen : req.passenger_details.length = req.seats_required) :
    state_inv (book_flight db req).1 := by
  obtain ⟨hfl, hin, hbb, hpb, hsc, hci, hsb⟩ := hinv
  cases hbc : book_check db req.flight_id req.travel_date with
  | some t =>
    obtain ⟨avail, price, fdate⟩ := t
    obtain ⟨i, hi, hifid, hifd, hiav, hfd⟩ :=
      book_check_some db req.flight_id req.travel_date avail price fdate hbc
    simp only [book_flight, hbc]
    by_cases hlt : avail < (req.seats_required : Int)
    · rw [if_pos hlt]
      exact ⟨hfl, hin, hbb, hpb, hsc, hci, hsb⟩
    · rw [if_neg hlt]
      exact state_inv_book_core db db req.flight_id req.travel_date
        req.seats_required
        { booking_id := db.next_booking_id, flight_id := req.flight_id,
          user_id := 1, booking_date := db.now, travel_date := fdate,
          status := "confirmed", total_price := price * req.seats_required }
        req.passenger_details hfl hbb hpb hsc hin hsb hci
        ⟨i, hi, hifid, hifd⟩
        (fun j hj e1 e2 => by
          have hji : j = i := pairwise_key_unique db.instances hin j i hj hi
            ⟨e1.trans hifid.symm, e2.trans hifd.symm⟩
          rw [hji, hiav]
          omega)
        h1n hplen rfl rfl hfd rfl rfl rfl rfl rfl
  | none =>
    simp only [book_flight, hbc]
    cases hfs : db.flights.find? (fun f =>
        f.flight_id == req.flight_id && !f.is_deleted) with
    | none =>
      simp only [hfs]
      exact ⟨hfl, hin, hbb, hpb, hsc, hci, hsb⟩
    | some f =>
      simp only [hfs]
      by_cases hlt : (f.total_seats : Int) < (req.seats_required : Int)
      · rw [if_pos hlt]
        exact ⟨hfl, hin, hbb, hpb, hsc, hci, hsb⟩
      · rw [if_neg hlt]
        have hainone := book_check_none_inst db req.flight_id req.travel_date
          f hbc hfs
        have hnone2 : db.instances.find? (fun i =>
            i.flight_id == req.flight_id && i.flight_date == req.travel_date) =
            none := hainone
        have hnokey := List.find?_eq_none.mp hnone2
        have hplain := find?_plain_of_strict db.flights req.flight_id f hfl hfs
        have hT : total_seats_of db req.flight_id = f.total_seats := by
          unfold total_seats_of
          rw [hplain]
        have hs0 : seat_sum db.passengers db.bookings req.flight_id
            req.travel_date = 0 := by
          apply seat_sum_zero_of_no_confirmed
          intro b hb e1 e2 ec
          obtain ⟨i0, hi0, hik⟩ := hci b hb ec
          exact hnokey i0 hi0 (by rw [hik.1, hik.2, e1, e2]; simp)
        refine state_inv_book_core db
          { db with instances := db.instances ++
              [({ flight_id := req.flight_id, flight_date := req.travel_date,
                  available_seats := (f.total_seats : Int),
                  is_deleted := false } : FlightInstance)] }
          req.flight_id req.travel_date req.seats_required
          { booking_id := db.next_booking_id, flight_id := req.flight_id,
            user_id := 1, booking_date := db.now,
            travel_date := req.travel_date, status := "confirmed",
            total_price := f.base_price * req.seats_required }
          req.passenger_details hfl hbb hpb hsc ?_ ?_ ?_ ?_ ?_
          h1n hplen rfl rfl rfl rfl rfl rfl rfl rfl
        · show (db.instances ++
              [({ flight_id := req.flight_id, flight_date := req.travel_date,
                  available_seats := (f.total_seats : Int),
                  is_deleted := false } : FlightInstance)]).Pairwise _
          rw [List.pairwise_append]
          refine ⟨hin, by simp, ?_⟩
          intro a ha b hb
          rw [List.mem_singleton] at hb
          subst hb
          intro hk
          exact hnokey a ha (by rw [hk.1, hk.2]; simp)
        · intro j hj
          rcases List.mem_append.mp hj with hj0 | hj1
          · exact hsb j hj0
          · rw [List.mem_singleton] at hj1
            subst hj1
            dsimp only
            rw [hs0, hT]
            exact ⟨by omega, by omega, fun hd => by simp at hd⟩
        · intro b hb hc
          obtain ⟨i0, hi0, hik⟩ := hci b hb hc
          exact ⟨i0, List.mem_append_left _ hi0, hik⟩
        · exact ⟨_, List.mem_append_right _ (List.mem_singleton.mpr rfl),
            rfl, rfl⟩
        · intro j hj e1 e2
          rcases List.mem_append.mp hj with hj0 | hj1
          · exact absurd (by rw [e1, e2]; simp) (hnokey j hj0)
          · rw [List.mem_singleton] at hj1
            subst hj1
            show (req.seats_required : Int) ≤ (f.total_seats : Int)
            omega

theorem state_inv_init (ref : DB) (h : initial_state ref) : state_inv ref := by
  obtain ⟨hi, hb, hp, hf⟩ := h
  refine ⟨hf, ?_, ?_, ?_, ?_, ?_, ?_⟩
  · rw [hi]
    exact List.Pairwise.nil
  · rw [hb]
    intro b hbm
    exact absurd hbm (List.not_mem_nil b)
  · rw [hp]
    intro p hpm
    exact absurd hpm (List.not_mem_nil p)
  · rw [hb]
    intro b hbm
    exact absurd hbm (List.not_mem_nil b)
  · rw [hb]
    intro b hbm
    exact absurd hbm (List.not_mem_nil b)
  · rw [hi]
    intro i him
    exact absurd him (List.not_mem_nil i)

theorem state_inv_run (ops : List Op) : ∀ db : DB, state_inv db →
    ops.all balanced_op = true → state_inv (run_ops db ops) := by
  induction ops with
  | nil => exact fun db h _ => h
  | cons op ops ih =>
    intro db h hall
    rw [List.all_cons, Bool.and_eq_true] at hall
    show state_inv (run_ops (apply_op db op) ops)
    apply ih _ _ hall.2
    cases op with
    | book req =>
      have hb := hall.1
      rw [balanced_op, Bool.and_eq_true] at hb
      exact state_inv_book db req h (of_decide_eq_true hb.1) (eq_of_beq hb.2)
    | cancelB ids => exact state_inv_cancelB db ids h
    | cancelF fid d => exact state_inv_cancelF db fid d h

theorem seat_invariant_of_state_inv (db : DB) (h : state_inv db) :
    seat_invariant db := by
  obtain ⟨-, -, -, -, -, -, hsb⟩ := h
  intro i hi
  obtain ⟨hl, hb, hd⟩ := hsb i hi
  exact ⟨hl, by omega, fun hdel => (hd hdel).1⟩

/-- C2: starting from reference data, every sequence of booking and
cancellation operations in which each booking request carries exactly
`seats_required` passengers preserves the seat invariant
`0 ≤ available_seats ≤ total_seats`, with deleted instances at zero. -/
theorem C2_seat_invariant_of_balanced_trace (ref : DB) (ops : List Op)
    (h0 : initial_state ref) (hops : ops.all balanced_op = true) :
    seat_invariant (run_ops ref ops) :=
  seat_invariant_of_state_inv _
    (state_inv_run ops ref (state_inv_init ref h0) hops)

theorem C2_seat_invariant_witness :
    initial_state dbRef ∧
    ([Op.book reqBalanced, Op.cancelB [1]].all balanced_op = true) ∧
    seat_invariant (run_ops dbRef [Op.book reqBalanced, Op.cancelB [1]]) :=
  ⟨by decide, by decide,
    C2_seat_invariant_of_balanced_trace dbRef
      [Op.book reqBalanced, Op.cancelB [1]] (by decide) (by decide)⟩

end FlightBooking
